import Mathlib

/-!
# Ikarus roll-off roof driver: embedding of `ikarus_roof.cpp`

The driver object is embedded as a record `Roof` holding the members the
methods read and write; every method is a pure function on that record.
The three things a method obtains from outside are explicit arguments:

* the two levels returned by `digitalRead` on the limit inputs,
* the reply of the HTTP transport inside `sendRelayCommand` (`CurlOutcome`),
* the weather state (a field set by the host framework).

Commands sent to the motor relay and to the air conditioner are appended to
`Roof.trace`, in the order in which the code sends them; a relay request
counts as sent when `curl_easy_perform` is called for it.

The driver derives from the host framework's dome class. The few inherited
operations it calls (`SetParked`, `setDomeState`, `IUResetSwitch`, `SetTimer`,
`InitPark`, and the base `Move` and `Abort` entry points) are not part of the
repository;
each is given here the effect the specification attributes to it and is marked
as such in its doc comment.
-/

namespace IkarusRoof

/-- Switch state of the INDI API: `ISS_OFF = 0`, `ISS_ON = 1`. -/
inductive ISState where
  | ISS_OFF
  | ISS_ON
  deriving DecidableEq, Repr

/-- Property state of the INDI API, in enumeration order:
`IPS_IDLE = 0`, `IPS_OK = 1`, `IPS_BUSY = 2`, `IPS_ALERT = 3`. -/
inductive IPState where
  | IPS_IDLE
  | IPS_OK
  | IPS_BUSY
  | IPS_ALERT
  deriving DecidableEq, Repr

/-- Direction of a move: `DOME_CW` opens the roof, `DOME_CCW` closes it. -/
inductive DomeDirection where
  | DOME_CW
  | DOME_CCW
  deriving DecidableEq, Repr

/-- Motion command: start or stop. -/
inductive DomeMotionCommand where
  | MOTION_START
  | MOTION_STOP
  deriving DecidableEq, Repr

open ISState IPState DomeDirection DomeMotionCommand

/-- Integer value of an `IPState` enumerator. -/
def IPState.toInt : IPState → Int
  | IPS_IDLE => 0
  | IPS_OK => 1
  | IPS_BUSY => 2
  | IPS_ALERT => 3

/-- Conversion performed by `bool rc = <IPState value>;` in `Park` and `UnPark`:
an enumerator converts to `true` exactly when its value is not zero. -/
def IPState.toBool (p : IPState) : Bool :=
  p.toInt != 0

/-- Request selected by `sendRelayCommand`:
`Stop` is `outlet?a=OFF`, `DriveOpen` is `outlet?1=ON`,
`DriveClose` is `outlet?2=ON&3=ON`. -/
inductive RelayAction where
  | Stop
  | DriveOpen
  | DriveClose
  deriving DecidableEq, Repr

/-- An outward command: a relay request, or a write of the air-conditioner pin
(`ac true` is `digitalWrite(AC_PIN, HIGH)`, `ac false` is `LOW`). -/
inductive Cmd where
  | relay (a : RelayAction)
  | ac (enable : Bool)
  deriving DecidableEq, Repr

/-- What the transport does inside `sendRelayCommand`: `curl_easy_init` gives no
handle, or the request is performed and `curl_easy_perform` returns `res`. -/
inductive CurlOutcome where
  | noHandle
  | performed (res : Nat)
  deriving DecidableEq, Repr

/-- Members of the driver object read or written by the embedded methods. -/
structure Roof where
  /-- Result of `isConnected()`. -/
  connected : Bool
  fullOpenLimitSwitch : ISState
  fullClosedLimitSwitch : ISState
  /-- Function-local static of `getLimitSwitchStatus`. -/
  prev_open_state : Int
  /-- Function-local static of `getLimitSwitchStatus`. -/
  prev_close_state : Int
  /-- The switch `ParkS[0].s` ("Park"). -/
  ParkS0 : ISState
  /-- The switch `ParkS[1].s` ("UnPark"). -/
  ParkS1 : ISState
  /-- The property state `ParkSP.s`. -/
  ParkSP_s : IPState
  /-- The property state `DomeMotionSP.s`. -/
  DomeMotionSP_s : IPState
  /-- The switch `DomeMotionS[DOME_CW].s`. -/
  DomeMotionS_CW : ISState
  /-- The switch `DomeMotionS[DOME_CCW].s`. -/
  DomeMotionS_CCW : ISState
  /-- The switch `ACControlS[0].s` ("On"). -/
  ACControlS0 : ISState
  /-- The switch `ACControlS[1].s` ("Off"). -/
  ACControlS1 : ISState
  /-- The property state `ACControlSP.s`. -/
  ACControlSP_s : IPState
  /-- Level last written to `AC_PIN`. -/
  acPin : Bool
  /-- Result of `getWeatherState()`. -/
  weatherState : IPState
  /-- Number of `SetTimer(POLLMS)` calls made so far. -/
  timers : Nat
  /-- Relay requests and air-conditioner writes, oldest first. -/
  trace : List Cmd
  deriving DecidableEq, Repr

/-- Driver object after the constructor (both limit switches `ISS_OFF`, the
debounce memos at `-1`), connected, with every property idle and all switches
off. -/
def Roof.init : Roof where
  connected := true
  fullOpenLimitSwitch := ISS_OFF
  fullClosedLimitSwitch := ISS_OFF
  prev_open_state := -1
  prev_close_state := -1
  ParkS0 := ISS_OFF
  ParkS1 := ISS_OFF
  ParkSP_s := IPS_IDLE
  DomeMotionSP_s := IPS_IDLE
  DomeMotionS_CW := ISS_OFF
  DomeMotionS_CCW := ISS_OFF
  ACControlS0 := ISS_OFF
  ACControlS1 := ISS_OFF
  ACControlSP_s := IPS_IDLE
  acPin := false
  weatherState := IPS_IDLE
  timers := 0
  trace := []

/-- A Parked roof at rest: Closed limit sensed with the inputs reading open high
and closed low, air conditioner on, no move in progress. -/
def Roof.parkedAtRest : Roof :=
  { Roof.init with
      ParkS0 := ISS_ON, fullClosedLimitSwitch := ISS_ON,
      prev_open_state := 1, prev_close_state := 0,
      acPin := true, ACControlS0 := ISS_ON }

/-! ## Views used by the specification -/

/-- Park state of the specification. -/
inductive ParkState where
  | Parked
  | Unparked
  | Unknown
  deriving DecidableEq, Repr

/-- Motion intent of the specification. -/
inductive MotionIntent where
  | Idle
  | Opening
  | Closing
  deriving DecidableEq, Repr

/-- Park state shown by the park switches: `ParkS[0]` on is Parked, `ParkS[1]`
on is Unparked, both off is Unknown. -/
def parkState (s : Roof) : ParkState :=
  if s.ParkS0 = ISS_ON then ParkState.Parked
  else if s.ParkS1 = ISS_ON then ParkState.Unparked
  else ParkState.Unknown

/-- Motion intent shown by the motion property, read the way `TimerHit` reads
it: busy with `DOME_CW` on is Opening, busy with `DOME_CCW` on is Closing. -/
def motionIntent (s : Roof) : MotionIntent :=
  if s.DomeMotionSP_s = IPS_BUSY then
    if s.DomeMotionS_CW = ISS_ON then MotionIntent.Opening
    else if s.DomeMotionS_CCW = ISS_ON then MotionIntent.Closing
    else MotionIntent.Idle
  else MotionIntent.Idle

/-! ## Host-framework operations used by the driver -/

/-- Modelled from the spec: `IUResetSwitch(&ParkSP)` of the host framework is not
under src/. It turns every switch of the park vector off, which is the
specification's Unknown park state. -/
def IUResetSwitch_ParkSP (s : Roof) : Roof :=
  { s with ParkS0 := ISS_OFF, ParkS1 := ISS_OFF }

/-- Modelled from the spec: `setDomeState(DOME_IDLE)` of the base class is not
under src/. The specification's effect is "MotionIntent = Idle": a busy motion
property is reset and becomes idle. -/
def setDomeState_DOME_IDLE (s : Roof) : Roof :=
  if s.DomeMotionSP_s = IPS_BUSY then
    { s with DomeMotionSP_s := IPS_IDLE, DomeMotionS_CW := ISS_OFF, DomeMotionS_CCW := ISS_OFF }
  else s

/-- Modelled from the spec: `SetParked` of the base class is not under src/.
The specification's effect is "set ParkState = Parked (true) or Unparked
(false), set MotionIntent = Idle". -/
def SetParked (isparked : Bool) (s : Roof) : Roof :=
  let s1 := setDomeState_DOME_IDLE s
  if isparked then { s1 with ParkS0 := ISS_ON, ParkS1 := ISS_OFF }
  else { s1 with ParkS0 := ISS_OFF, ParkS1 := ISS_ON }

/-- Modelled from the spec: `SetTimer(POLLMS)` of the host framework is not under
src/. It schedules the next poll tick; the embedding counts the requests. -/
def SetTimer (s : Roof) : Roof :=
  { s with timers := s.timers + 1 }

/-! ## The driver's methods -/

/-- The method `IkarusRoof::getFullOpenedLimitSwitch`. -/
def getFullOpenedLimitSwitch (s : Roof) : Bool :=
  decide (s.fullOpenLimitSwitch = ISS_ON)

/-- The method `IkarusRoof::getFullClosedLimitSwitch`. -/
def getFullClosedLimitSwitch (s : Roof) : Bool :=
  decide (s.fullClosedLimitSwitch = ISS_ON)

/-- The method `IkarusRoof::getLimitSwitchStatus`; `full_open_state` and
`full_closed_state` are the two `digitalRead` results. -/
def getLimitSwitchStatus (full_open_state full_closed_state : Int) (s : Roof) : Bool × Roof :=
  if s.prev_open_state ≠ full_open_state then
    (true, { s with prev_open_state := full_open_state })
  else if s.prev_close_state ≠ full_closed_state then
    (true, { s with prev_close_state := full_closed_state })
  else
    (true, { s with
      fullOpenLimitSwitch := if full_open_state ≠ 0 then ISS_OFF else ISS_ON,
      fullClosedLimitSwitch := if full_closed_state ≠ 0 then ISS_OFF else ISS_ON })

/-- Request that `sendRelayCommand` writes into `requestURL`. -/
def requestURL (dir : DomeDirection) (operation : DomeMotionCommand) : RelayAction :=
  if operation = MOTION_STOP then RelayAction.Stop
  else if dir = DOME_CW then RelayAction.DriveOpen
  else RelayAction.DriveClose

/-- The method `IkarusRoof::sendRelayCommand`. When `curl_easy_init` gives no
handle nothing is sent and the result is `true`. Otherwise the selected
request is performed, which the trace records, and the result is `false`
exactly when `curl_easy_perform` returned a non-zero code. -/
def sendRelayCommand (dir : DomeDirection) (operation : DomeMotionCommand)
    (curl : CurlOutcome) (s : Roof) : Bool × Roof :=
  match curl with
  | CurlOutcome.noHandle => (true, s)
  | CurlOutcome.performed res =>
    let s1 := { s with trace := s.trace ++ [Cmd.relay (requestURL dir operation)] }
    if res ≠ 0 then (false, s1) else (true, s1)

/-- The method `IkarusRoof::setAC`. -/
def setAC (enable : Bool) (s : Roof) : Roof :=
  if enable then
    { s with acPin := true, ACControlS0 := ISS_ON, ACControlS1 := ISS_OFF,
             ACControlSP_s := IPS_OK, trace := s.trace ++ [Cmd.ac true] }
  else
    { s with acPin := false, ACControlS0 := ISS_OFF, ACControlS1 := ISS_ON,
             ACControlSP_s := IPS_OK, trace := s.trace ++ [Cmd.ac false] }

/-- The method `IkarusRoof::TimerHit`, one poll tick. -/
def TimerHit (full_open_state full_closed_state : Int) (curl : CurlOutcome) (s : Roof) : Roof :=
  if s.connected = false then s
  else
    let s1 := (getLimitSwitchStatus full_open_state full_closed_state s).2
    if s1.DomeMotionSP_s = IPS_BUSY then
      if s1.DomeMotionS_CW = ISS_ON then
        if getFullOpenedLimitSwitch s1 then
          SetTimer (SetParked false (sendRelayCommand DOME_CW MOTION_STOP curl s1).2)
        else SetTimer s1
      else if s1.DomeMotionS_CCW = ISS_ON then
        if getFullClosedLimitSwitch s1 then
          SetTimer (setAC true (SetParked true (sendRelayCommand DOME_CCW MOTION_STOP curl s1).2))
        else SetTimer s1
      else SetTimer s1
    else
      if getFullClosedLimitSwitch s1 && getFullClosedLimitSwitch s1 then
        SetTimer s1
      else if decide (s1.ParkS0 = ISS_OFF) && getFullClosedLimitSwitch s1 then
        SetTimer (SetParked true s1)
      else if decide (s1.ParkS1 = ISS_OFF) && getFullOpenedLimitSwitch s1 then
        SetTimer (SetParked false s1)
      else if (decide (s1.ParkS0 = ISS_ON) || decide (s1.ParkS1 = ISS_ON)) &&
          (getFullOpenedLimitSwitch s1 == false) && (getFullClosedLimitSwitch s1 == false) then
        SetTimer (IUResetSwitch_ParkSP s1)
      else SetTimer s1

/-- The method `IkarusRoof::Abort`. The source compares each limit switch with
`false`, which holds exactly for `ISS_OFF` (value 0). -/
def Abort (curl : CurlOutcome) (s : Roof) : Bool × Roof :=
  let s1 :=
    if s.fullOpenLimitSwitch = ISS_OFF ∧ s.fullClosedLimitSwitch = ISS_OFF then
      { IUResetSwitch_ParkSP s with ParkSP_s := IPS_IDLE }
    else s
  let r := sendRelayCommand DOME_CW MOTION_STOP curl s1
  if r.1 then (r.1, setDomeState_DOME_IDLE r.2) else (r.1, r.2)

/-- Modelled from the spec: `Dome::Abort` of the base class is not under src/.
The specification's `Abort()` "returns Ok/Alert synchronously"; the base
method dispatches to the driver's `Abort` and returns its result. -/
def Dome_Abort (curl : CurlOutcome) (s : Roof) : Bool × Roof :=
  Abort curl s

/-- The method `IkarusRoof::Move`. -/
def Move (dir : DomeDirection) (operation : DomeMotionCommand) (curl : CurlOutcome)
    (s : Roof) : IPState × Roof :=
  if operation = MOTION_START then
    if dir = DOME_CW ∧ s.fullOpenLimitSwitch = ISS_ON then (IPS_ALERT, s)
    else if dir = DOME_CW ∧ s.weatherState = IPS_ALERT then (IPS_ALERT, s)
    else if dir = DOME_CCW ∧ s.fullClosedLimitSwitch = ISS_ON then (IPS_ALERT, s)
    else
      let s1 := { s with fullOpenLimitSwitch := ISS_OFF, fullClosedLimitSwitch := ISS_OFF }
      let r := sendRelayCommand dir operation curl s1
      if r.1 = false then (IPS_ALERT, r.2) else (IPS_BUSY, r.2)
  else
    let r := Dome_Abort curl s
    (if r.1 then IPS_OK else IPS_ALERT, r.2)

/-- Modelled from the spec: `INDI::Dome::Move` of the base class is not under
src/. It dispatches to the driver's `Move` and returns its `IPState`; when the
move is accepted (`IPS_BUSY` or `IPS_OK`) the motion property takes that state
and, for a start, the switch of the requested direction is turned on
("set MotionIntent to Opening/Closing"); a rejected move changes nothing
more. -/
def Dome_Move (dir : DomeDirection) (operation : DomeMotionCommand) (curl : CurlOutcome)
    (s : Roof) : IPState × Roof :=
  let r := Move dir operation curl s
  if r.1 = IPS_BUSY ∨ r.1 = IPS_OK then
    (r.1, { r.2 with
      DomeMotionSP_s := r.1,
      DomeMotionS_CW := if operation = MOTION_START ∧ dir = DOME_CW then ISS_ON else ISS_OFF,
      DomeMotionS_CCW := if operation = MOTION_START ∧ dir = DOME_CCW then ISS_ON else ISS_OFF })
  else (r.1, r.2)

/-- The method `IkarusRoof::Park`. -/
def Park (curl : CurlOutcome) (s : Roof) : IPState × Roof :=
  let r := Dome_Move DOME_CCW MOTION_START curl s
  let rc : Bool := r.1.toBool
  if rc then (IPS_BUSY, r.2) else (IPS_ALERT, r.2)

/-- The method `IkarusRoof::UnPark`. -/
def UnPark (curl : CurlOutcome) (s : Roof) : IPState × Roof :=
  let r := Dome_Move DOME_CW MOTION_START curl s
  let rc : Bool := r.1.toBool
  if rc then (IPS_BUSY, setAC false r.2) else (IPS_ALERT, r.2)

/-! ## Sequences of calls -/

/-- Successive `getLimitSwitchStatus` calls, one per raw pair `(open, closed)`,
oldest first. -/
def runReads : List (Int × Int) → Roof → Roof
  | [], s => s
  | r :: rs, s => runReads rs (getLimitSwitchStatus r.1 r.2 s).2

/-- Successive poll ticks, one per input `((open, closed), transport reply)`,
oldest first. -/
def runTicks : List ((Int × Int) × CurlOutcome) → Roof → Roof
  | [], s => s
  | i :: is, s => runTicks is (TimerHit i.1.1 i.1.2 i.2 s)

/-- Poll ticks run one after another until the first tick after which `p` holds;
`none` when the inputs run out before that. -/
def ticksUntil (p : Roof → Bool) : List ((Int × Int) × CurlOutcome) → Roof → Option Roof
  | [], _ => none
  | i :: is, s =>
    if p (TimerHit i.1.1 i.1.2 i.2 s) then some (TimerHit i.1.1 i.1.2 i.2 s)
    else ticksUntil p is (TimerHit i.1.1 i.1.2 i.2 s)

/-- Commands appended to the trace between a state `s` and a later state `s1`. -/
def emitted (s s1 : Roof) : List Cmd :=
  s1.trace.drop s.trace.length

/-! ## Connection setup -/

/-- Modelled from the spec: `InitPark` of the base class is not under src/.
The specification's effect is "ParkState loaded from persisted data if
present, else Unknown": the park switches show the persisted value, or are
both off when there is none. -/
def InitPark (persisted : Option ParkState) (s : Roof) : Roof :=
  match persisted with
  | some ParkState.Parked => { s with ParkS0 := ISS_ON, ParkS1 := ISS_OFF }
  | some ParkState.Unparked => { s with ParkS0 := ISS_OFF, ParkS1 := ISS_ON }
  | some ParkState.Unknown => { s with ParkS0 := ISS_OFF, ParkS1 := ISS_OFF }
  | none => { s with ParkS0 := ISS_OFF, ParkS1 := ISS_OFF }

/-- The method `IkarusRoof::SetupParms`. `persisted` is the park data found by
`InitPark`, `r1 r2 r3` are the raw pairs `(open, closed)` of the three sensor
reads and `ac_level` is `digitalRead(AC_PIN)`. -/
def SetupParms (persisted : Option ParkState) (r1 r2 r3 : Int × Int) (ac_level : Int)
    (s : Roof) : Bool × Roof :=
  let s0 := InitPark persisted s
  let s1 := (getLimitSwitchStatus r1.1 r1.2 s0).2
  let s2 := (getLimitSwitchStatus r2.1 r2.2 s1).2
  let s3 := (getLimitSwitchStatus r3.1 r3.2 s2).2
  let s4 : Roof :=
    if ac_level ≠ 0 then { s3 with ACControlS0 := ISS_ON, ACControlS1 := ISS_OFF }
    else { s3 with ACControlS0 := ISS_OFF, ACControlS1 := ISS_ON }
  if s4.fullClosedLimitSwitch = ISS_OFF ∧ s4.fullOpenLimitSwitch = ISS_OFF then
    (true, IUResetSwitch_ParkSP { s4 with ParkSP_s := IPS_IDLE })
  else if s4.fullClosedLimitSwitch = ISS_ON then (true, SetParked true s4)
  else if s4.fullOpenLimitSwitch = ISS_ON then (true, SetParked false s4)
  else (true, s4)

/-! ## Reference reader of the specification -/

/-- The part of the driver state the sensor reader owns: the two memos of the
last raw levels and the two logical switches (`true` is Engaged). -/
structure SensorView where
  openMemo : Int
  closedMemo : Int
  openEngaged : Bool
  closedEngaged : Bool
  deriving DecidableEq, Repr

/-- Sensor part of a driver state. -/
def sensorView (s : Roof) : SensorView where
  openMemo := s.prev_open_state
  closedMemo := s.prev_close_state
  openEngaged := decide (s.fullOpenLimitSwitch = ISS_ON)
  closedEngaged := decide (s.fullClosedLimitSwitch = ISS_ON)

/-- Reference reader, written from the specification's wording: an open level
that differs from the open memo updates only that memo; otherwise a closed
level that differs from the closed memo updates only that memo; otherwise
(stable tick) each logical switch is Engaged exactly when its raw level is
low, and the memos stay. -/
def readReference (o c : Int) (v : SensorView) : SensorView :=
  if o ≠ v.openMemo then { v with openMemo := o }
  else if c ≠ v.closedMemo then { v with closedMemo := c }
  else { v with openEngaged := decide (o = 0), closedEngaged := decide (c = 0) }

/-! ## Lemmas on the sensor reader -/

theorem runReads_append (xs ys : List (Int × Int)) (s : Roof) :
    runReads (xs ++ ys) s = runReads ys (runReads xs s) := by
  induction xs generalizing s with
  | nil => rfl
  | cons x xs ih => simp [runReads, ih]

/-- After a call the open memo is the raw open level of that call. -/
theorem getLimitSwitchStatus_prev_open (o c : Int) (s : Roof) :
    (getLimitSwitchStatus o c s).2.prev_open_state = o := by
  by_cases h1 : s.prev_open_state = o
  · by_cases h2 : s.prev_close_state = c <;> simp [getLimitSwitchStatus, h1, h2]
  · simp [getLimitSwitchStatus, h1]

/-- A call at which a raw level differs from its memo changes neither logical
switch. -/
theorem getLimitSwitchStatus_hold (o c : Int) (s : Roof)
    (h : s.prev_open_state ≠ o ∨ s.prev_close_state ≠ c) :
    (getLimitSwitchStatus o c s).2.fullOpenLimitSwitch = s.fullOpenLimitSwitch ∧
    (getLimitSwitchStatus o c s).2.fullClosedLimitSwitch = s.fullClosedLimitSwitch := by
  by_cases h1 : s.prev_open_state = o
  · by_cases h2 : s.prev_close_state = c
    · exact absurd h (by simp [h1, h2])
    · simp [getLimitSwitchStatus, h1, h2]
  · simp [getLimitSwitchStatus, h1]

/-- A call changes nothing but the two memos and the two logical switches. -/
theorem getLimitSwitchStatus_frame (o c : Int) (s : Roof) :
    (getLimitSwitchStatus o c s).2.connected = s.connected ∧
    (getLimitSwitchStatus o c s).2.ParkS0 = s.ParkS0 ∧
    (getLimitSwitchStatus o c s).2.ParkS1 = s.ParkS1 ∧
    (getLimitSwitchStatus o c s).2.DomeMotionSP_s = s.DomeMotionSP_s ∧
    (getLimitSwitchStatus o c s).2.DomeMotionS_CW = s.DomeMotionS_CW ∧
    (getLimitSwitchStatus o c s).2.DomeMotionS_CCW = s.DomeMotionS_CCW ∧
    (getLimitSwitchStatus o c s).2.ACControlS0 = s.ACControlS0 ∧
    (getLimitSwitchStatus o c s).2.ACControlS1 = s.ACControlS1 ∧
    (getLimitSwitchStatus o c s).2.acPin = s.acPin ∧
    (getLimitSwitchStatus o c s).2.trace = s.trace := by
  by_cases h1 : s.prev_open_state = o
  · by_cases h2 : s.prev_close_state = c <;> simp [getLimitSwitchStatus, h1, h2]
  · simp [getLimitSwitchStatus, h1]

/-! ## C3: debounce on a flip tick -/

/-- C3 as stated fails: after three stable reads with the open input low the
logical Open switch is Engaged, and on the next tick, where the raw open level
flips from low to high, it is still Engaged. -/
theorem C3_counterexample :
    ¬ ∀ (s : Roof) (pre : List (Int × Int)) (p r : Int × Int),
      (p.1 ≠ r.1 → (runReads (pre ++ [p, r]) s).fullOpenLimitSwitch ≠ ISS_ON) ∧
      (p.2 ≠ r.2 → (runReads (pre ++ [p, r]) s).fullClosedLimitSwitch ≠ ISS_ON) := by
  intro h
  have h1 := (h Roof.init [(0, 1), (0, 1)] (0, 1) (1, 1)).1 (by decide)
  exact h1 (by decide)

/-- C3 (amended): for every memo state and every sequence of raw readings, at a
tick whose raw open level differs from the raw open level of the tick before,
or whose raw closed level differs from the closed memo left by the tick
before, both logical switches after the tick equal what they were after the
tick before: the output is held, not recomputed. -/
theorem C3_flip_tick_holds_logical_state (s : Roof) (pre : List (Int × Int))
    (p r : Int × Int)
    (hflip : p.1 ≠ r.1 ∨ (runReads (pre ++ [p]) s).prev_close_state ≠ r.2) :
    (runReads (pre ++ [p, r]) s).fullOpenLimitSwitch
        = (runReads (pre ++ [p]) s).fullOpenLimitSwitch ∧
    (runReads (pre ++ [p, r]) s).fullClosedLimitSwitch
        = (runReads (pre ++ [p]) s).fullClosedLimitSwitch := by
  have e1 : runReads (pre ++ [p, r]) s
      = (getLimitSwitchStatus r.1 r.2 (runReads (pre ++ [p]) s)).2 := by
    simp [runReads_append, runReads]
  have e2 : (runReads (pre ++ [p]) s).prev_open_state = p.1 := by
    simp [runReads_append, runReads, getLimitSwitchStatus_prev_open]
  rw [e1]
  apply getLimitSwitchStatus_hold
  rcases hflip with h | h
  · left; rw [e2]; exact h
  · right; exact h

/-- Witness for C3: the open input flips from low to high after three stable
reads; the Engaged output is held. -/
theorem C3_flip_tick_holds_logical_state_witness :
    ((0 : Int) ≠ 1) ∧
    (runReads ([(0, 1), (0, 1)] ++ [(0, 1), (1, 1)]) Roof.init).fullOpenLimitSwitch
        = (runReads ([(0, 1), (0, 1)] ++ [(0, 1)]) Roof.init).fullOpenLimitSwitch ∧
    (runReads ([(0, 1), (0, 1)] ++ [(0, 1), (1, 1)]) Roof.init).fullClosedLimitSwitch
        = (runReads ([(0, 1), (0, 1)] ++ [(0, 1)]) Roof.init).fullClosedLimitSwitch :=
  ⟨by decide,
   C3_flip_tick_holds_logical_state Roof.init [(0, 1), (0, 1)] (0, 1) (1, 1)
     (Or.inl (by decide))⟩

/-! ## C6: preconditions of a move -/

/-- C6 as stated fails: a close request from the constructor state violates no
precondition, yet when `curl_easy_init` gives no handle `Move` sends no relay
request at all (and still returns `IPS_BUSY`). -/
theorem C6_counterexample :
    ¬ ∀ (dir : DomeDirection) (curl : CurlOutcome) (s : Roof),
      (((dir = DOME_CW ∧ s.fullOpenLimitSwitch = ISS_ON) ∨
        (dir = DOME_CW ∧ s.weatherState = IPS_ALERT) ∨
        (dir = DOME_CCW ∧ s.fullClosedLimitSwitch = ISS_ON)) →
          Move dir MOTION_START curl s = (IPS_ALERT, s)) ∧
      (¬ ((dir = DOME_CW ∧ s.fullOpenLimitSwitch = ISS_ON) ∨
          (dir = DOME_CW ∧ s.weatherState = IPS_ALERT) ∨
          (dir = DOME_CCW ∧ s.fullClosedLimitSwitch = ISS_ON)) →
          ∃ a : RelayAction,
            (Move dir MOTION_START curl s).2.trace = s.trace ++ [Cmd.relay a]) := by
  intro h
  obtain ⟨a, ha⟩ := (h DOME_CCW CurlOutcome.noHandle Roof.init).2 (by decide)
  have hlen := congrArg List.length ha
  revert hlen
  simp [Move, sendRelayCommand, Roof.init]

/-- C6 (amended): a start request is rejected without any effect exactly on a
precondition violation. If the request opens and the logical Open switch is
Engaged, or opens during a weather alert, or closes and the logical Closed
switch is Engaged, `Move` returns `IPS_ALERT` and the driver state is
untouched (no relay request, both logical switches as before). In every
other case `Move` sends exactly one relay request when the transport performs
it, and none when `curl_easy_init` gives no handle. -/
theorem C6_move_start_rejects_or_requests (dir : DomeDirection)
    (curl : CurlOutcome) (s : Roof) :
    (((dir = DOME_CW ∧ s.fullOpenLimitSwitch = ISS_ON) ∨
      (dir = DOME_CW ∧ s.weatherState = IPS_ALERT) ∨
      (dir = DOME_CCW ∧ s.fullClosedLimitSwitch = ISS_ON)) →
        Move dir MOTION_START curl s = (IPS_ALERT, s)) ∧
    (¬ ((dir = DOME_CW ∧ s.fullOpenLimitSwitch = ISS_ON) ∨
        (dir = DOME_CW ∧ s.weatherState = IPS_ALERT) ∨
        (dir = DOME_CCW ∧ s.fullClosedLimitSwitch = ISS_ON)) →
        (∀ res : Nat, curl = CurlOutcome.performed res →
          (Move dir MOTION_START curl s).2.trace
            = s.trace ++ [Cmd.relay (requestURL dir MOTION_START)]) ∧
        (curl = CurlOutcome.noHandle →
          (Move dir MOTION_START curl s).2.trace = s.trace)) := by
  constructor
  · intro h
    unfold Move
    rcases h with h | h | h
    · simp [h]
    · by_cases ho : s.fullOpenLimitSwitch = ISS_ON <;> simp [h, ho]
    · simp [h]
  · intro h
    simp only [not_or] at h
    obtain ⟨h1, h2, h3⟩ := h
    constructor
    · intro res hres
      subst hres
      unfold Move
      by_cases hr : res = 0 <;> simp [h1, h2, h3, sendRelayCommand, hr]
    · intro hcurl
      subst hcurl
      unfold Move
      simp [h1, h2, h3, sendRelayCommand]

/-- Witness for C6: opening with the Open limit Engaged is rejected untouched,
and closing from the same state sends one request when it is performed. -/
theorem C6_move_start_rejects_or_requests_witness :
    Move DOME_CW MOTION_START (CurlOutcome.performed 0)
        { Roof.init with fullOpenLimitSwitch := ISS_ON }
      = (IPS_ALERT, { Roof.init with fullOpenLimitSwitch := ISS_ON }) ∧
    (Move DOME_CCW MOTION_START (CurlOutcome.performed 0)
        { Roof.init with fullOpenLimitSwitch := ISS_ON }).2.trace
      = ({ Roof.init with fullOpenLimitSwitch := ISS_ON } : Roof).trace
          ++ [Cmd.relay (requestURL DOME_CCW MOTION_START)] :=
  ⟨(C6_move_start_rejects_or_requests DOME_CW (CurlOutcome.performed 0)
      { Roof.init with fullOpenLimitSwitch := ISS_ON }).1 (Or.inl ⟨rfl, rfl⟩),
   ((C6_move_start_rejects_or_requests DOME_CCW (CurlOutcome.performed 0)
      { Roof.init with fullOpenLimitSwitch := ISS_ON }).2 (by decide)).1 0 rfl⟩

/-! ## C7, C8: abort -/

/-- C7 as stated fails: when `curl_easy_init` gives no handle, `Abort` from the
constructor state sends no Stop request (and still reports success). -/
theorem C7_counterexample :
    ¬ ∀ (curl : CurlOutcome) (s : Roof),
      (Abort curl s).2.trace = s.trace ++ [Cmd.relay RelayAction.Stop] ∧
      ((sendRelayCommand DOME_CW MOTION_STOP curl s).1 = true →
        (s.fullOpenLimitSwitch = ISS_OFF ∧ s.fullClosedLimitSwitch = ISS_OFF →
          parkState (Abort curl s).2 = ParkState.Unknown) ∧
        (s.fullOpenLimitSwitch = ISS_ON ∨ s.fullClosedLimitSwitch = ISS_ON →
          parkState (Abort curl s).2 = parkState s) ∧
        motionIntent (Abort curl s).2 = MotionIntent.Idle ∧
        (Abort curl s).2.DomeMotionSP_s ≠ IPS_BUSY) := by
  intro h
  have h1 := (h CurlOutcome.noHandle Roof.init).1
  exact absurd h1 (by decide)

/-- C7 (amended): in every state `Abort` sends exactly one Stop request when the
transport performs it, and none when `curl_easy_init` gives no handle. When
`sendRelayCommand` reports success, the park state afterwards is Unknown if
both logical limit switches are Disengaged and is unchanged if at least one
is Engaged, and no move is in progress. -/
theorem C7_abort_stops_and_downgrades (curl : CurlOutcome) (s : Roof) :
    (∀ res : Nat, curl = CurlOutcome.performed res →
      (Abort curl s).2.trace = s.trace ++ [Cmd.relay RelayAction.Stop]) ∧
    (curl = CurlOutcome.noHandle → (Abort curl s).2.trace = s.trace) ∧
    ((sendRelayCommand DOME_CW MOTION_STOP curl s).1 = true →
      (s.fullOpenLimitSwitch = ISS_OFF ∧ s.fullClosedLimitSwitch = ISS_OFF →
        parkState (Abort curl s).2 = ParkState.Unknown) ∧
      (s.fullOpenLimitSwitch = ISS_ON ∨ s.fullClosedLimitSwitch = ISS_ON →
        parkState (Abort curl s).2 = parkState s) ∧
      motionIntent (Abort curl s).2 = MotionIntent.Idle ∧
      (Abort curl s).2.DomeMotionSP_s ≠ IPS_BUSY) := by
  cases curl with
  | noHandle =>
    by_cases ho : s.fullOpenLimitSwitch = ISS_OFF <;>
    by_cases hc : s.fullClosedLimitSwitch = ISS_OFF <;>
    by_cases hb : s.DomeMotionSP_s = IPS_BUSY <;>
    simp [Abort, sendRelayCommand, requestURL, setDomeState_DOME_IDLE,
      IUResetSwitch_ParkSP, parkState, motionIntent, ho, hc, hb]
  | performed res =>
    by_cases hr : res = 0 <;>
    by_cases ho : s.fullOpenLimitSwitch = ISS_OFF <;>
    by_cases hc : s.fullClosedLimitSwitch = ISS_OFF <;>
    by_cases hb : s.DomeMotionSP_s = IPS_BUSY <;>
    simp [Abort, sendRelayCommand, requestURL, setDomeState_DOME_IDLE,
      IUResetSwitch_ParkSP, parkState, motionIntent, hr, ho, hc, hb]

/-- Witness for C7: a closing move from the Parked state with both logical
switches Disengaged is aborted and the relay accepts the Stop. -/
theorem C7_abort_stops_and_downgrades_witness :
    (Abort (CurlOutcome.performed 0)
      { Roof.init with ParkS0 := ISS_ON, DomeMotionSP_s := IPS_BUSY,
                       DomeMotionS_CCW := ISS_ON }).2.trace
      = ({ Roof.init with ParkS0 := ISS_ON, DomeMotionSP_s := IPS_BUSY,
                          DomeMotionS_CCW := ISS_ON } : Roof).trace
          ++ [Cmd.relay RelayAction.Stop] ∧
    (sendRelayCommand DOME_CW MOTION_STOP (CurlOutcome.performed 0)
      { Roof.init with ParkS0 := ISS_ON, DomeMotionSP_s := IPS_BUSY,
                       DomeMotionS_CCW := ISS_ON }).1 = true ∧
    parkState (Abort (CurlOutcome.performed 0)
      { Roof.init with ParkS0 := ISS_ON, DomeMotionSP_s := IPS_BUSY,
                       DomeMotionS_CCW := ISS_ON }).2 = ParkState.Unknown ∧
    motionIntent (Abort (CurlOutcome.performed 0)
      { Roof.init with ParkS0 := ISS_ON, DomeMotionSP_s := IPS_BUSY,
                       DomeMotionS_CCW := ISS_ON }).2 = MotionIntent.Idle :=
  ⟨(C7_abort_stops_and_downgrades (CurlOutcome.performed 0)
      { Roof.init with ParkS0 := ISS_ON, DomeMotionSP_s := IPS_BUSY,
                       DomeMotionS_CCW := ISS_ON }).1 0 rfl,
   by decide,
   ((C7_abort_stops_and_downgrades (CurlOutcome.performed 0)
      { Roof.init with ParkS0 := ISS_ON, DomeMotionSP_s := IPS_BUSY,
                       DomeMotionS_CCW := ISS_ON }).2.2 (by decide)).1 ⟨rfl, rfl⟩,
   ((C7_abort_stops_and_downgrades (CurlOutcome.performed 0)
      { Roof.init with ParkS0 := ISS_ON, DomeMotionSP_s := IPS_BUSY,
                       DomeMotionS_CCW := ISS_ON }).2.2 (by decide)).2.2.1⟩

/-- C8 as stated fails: an opening move started from the Parked state has both
logical switches Disengaged; `Abort` with a rejected Stop returns failure but
the park state has gone from Parked to Unknown. -/
theorem C8_counterexample :
    ¬ ∀ (curl : CurlOutcome) (s : Roof),
      (sendRelayCommand DOME_CW MOTION_STOP curl s).1 = false →
        (Abort curl s).1 = false ∧
        parkState (Abort curl s).2 = parkState s ∧
        motionIntent (Abort curl s).2 = motionIntent s := by
  intro h
  have h1 := (h (CurlOutcome.performed 7)
    { Roof.init with ParkS0 := ISS_ON, DomeMotionSP_s := IPS_BUSY,
                     DomeMotionS_CW := ISS_ON } (by decide)).2.1
  exact absurd h1 (by decide)

/-- C8 (amended): in every state, if the transport rejects the Stop request sent
by `Abort`, then `Abort` returns failure and the motion property and its
switches are as before (so the motion intent is unchanged); the park state is
unchanged when at least one logical limit switch is Engaged and is Unknown
when both are Disengaged. -/
theorem C8_abort_rejected_keeps_motion (curl : CurlOutcome) (s : Roof)
    (hrej : (sendRelayCommand DOME_CW MOTION_STOP curl s).1 = false) :
    (Abort curl s).1 = false ∧
    (Abort curl s).2.DomeMotionSP_s = s.DomeMotionSP_s ∧
    (Abort curl s).2.DomeMotionS_CW = s.DomeMotionS_CW ∧
    (Abort curl s).2.DomeMotionS_CCW = s.DomeMotionS_CCW ∧
    motionIntent (Abort curl s).2 = motionIntent s ∧
    (s.fullOpenLimitSwitch = ISS_ON ∨ s.fullClosedLimitSwitch = ISS_ON →
      parkState (Abort curl s).2 = parkState s) ∧
    (s.fullOpenLimitSwitch = ISS_OFF ∧ s.fullClosedLimitSwitch = ISS_OFF →
      parkState (Abort curl s).2 = ParkState.Unknown) := by
  cases curl with
  | noHandle => simp [sendRelayCommand] at hrej
  | performed res =>
    have hr : res ≠ 0 := by
      intro h0
      simp [sendRelayCommand, h0] at hrej
    by_cases ho : s.fullOpenLimitSwitch = ISS_OFF <;>
    by_cases hc : s.fullClosedLimitSwitch = ISS_OFF <;>
    simp [Abort, sendRelayCommand, IUResetSwitch_ParkSP, parkState, motionIntent,
      hr, ho, hc]

/-- Witness for C8: the Stop of an abort is rejected while the Closed limit is
Engaged and the roof is Parked. -/
theorem C8_abort_rejected_keeps_motion_witness :
    (sendRelayCommand DOME_CW MOTION_STOP (CurlOutcome.performed 7)
      { Roof.init with ParkS0 := ISS_ON, fullClosedLimitSwitch := ISS_ON }).1 = false ∧
    (Abort (CurlOutcome.performed 7)
      { Roof.init with ParkS0 := ISS_ON, fullClosedLimitSwitch := ISS_ON }).1 = false ∧
    parkState (Abort (CurlOutcome.performed 7)
      { Roof.init with ParkS0 := ISS_ON, fullClosedLimitSwitch := ISS_ON }).2
      = parkState { Roof.init with ParkS0 := ISS_ON, fullClosedLimitSwitch := ISS_ON } :=
  ⟨by decide,
   (C8_abort_rejected_keeps_motion (CurlOutcome.performed 7)
      { Roof.init with ParkS0 := ISS_ON, fullClosedLimitSwitch := ISS_ON } (by decide)).1,
   (C8_abort_rejected_keeps_motion (CurlOutcome.performed 7)
      { Roof.init with ParkS0 := ISS_ON, fullClosedLimitSwitch := ISS_ON }
      (by decide)).2.2.2.2.2.1 (Or.inr rfl)⟩

/-! ## C10: park and unpark on a rejected move -/

/-- C10 fails on the code: with the Closed limit Engaged the close request is
rejected with `IPS_ALERT`, yet `Park` returns `IPS_BUSY`; with the Open limit
Engaged the open request is rejected with `IPS_ALERT`, yet `UnPark` returns
`IPS_BUSY` and writes the air conditioner off. The `IPState` result is stored
in a `bool`, and `IPS_ALERT` (3) converts to `true`. -/
theorem C10_park_unpark_busy_on_rejected_move :
    (Move DOME_CCW MOTION_START (CurlOutcome.performed 0)
      { Roof.init with ParkS0 := ISS_ON, fullClosedLimitSwitch := ISS_ON }).1 = IPS_ALERT ∧
    (Park (CurlOutcome.performed 0)
      { Roof.init with ParkS0 := ISS_ON, fullClosedLimitSwitch := ISS_ON }).1 = IPS_BUSY ∧
    (Move DOME_CW MOTION_START (CurlOutcome.performed 0)
      { Roof.init with ParkS1 := ISS_ON, fullOpenLimitSwitch := ISS_ON }).1 = IPS_ALERT ∧
    (UnPark (CurlOutcome.performed 0)
      { Roof.init with ParkS1 := ISS_ON, fullOpenLimitSwitch := ISS_ON }).1 = IPS_BUSY ∧
    (UnPark (CurlOutcome.performed 0)
      { Roof.init with ParkS1 := ISS_ON, fullOpenLimitSwitch := ISS_ON }).2.trace
      = [Cmd.ac false] ∧
    IPState.toBool IPS_ALERT = true := by
  decide

/-! ## Poll ticks with no move in progress -/

/-- A tick with no move in progress sends nothing, leaves the air conditioner
alone and starts no move. -/
theorem TimerHit_idle_frame (o c : Int) (curl : CurlOutcome) (s : Roof)
    (hidle : s.DomeMotionSP_s ≠ IPS_BUSY) :
    (TimerHit o c curl s).DomeMotionSP_s ≠ IPS_BUSY ∧
    (TimerHit o c curl s).trace = s.trace ∧
    (TimerHit o c curl s).acPin = s.acPin ∧
    (TimerHit o c curl s).ACControlS0 = s.ACControlS0 ∧
    (TimerHit o c curl s).ACControlS1 = s.ACControlS1 := by
  obtain ⟨-, -, -, f4, -, -, f7, f8, f9, f10⟩ := getLimitSwitchStatus_frame o c s
  have hidle1 : (getLimitSwitchStatus o c s).2.DomeMotionSP_s ≠ IPS_BUSY := by
    rw [f4]; exact hidle
  unfold TimerHit
  by_cases hconn : s.connected = false
  · simp [hconn, hidle]
  · simp only [hconn, if_false, hidle1]
    split_ifs <;>
      simp_all [SetTimer, SetParked, setDomeState_DOME_IDLE, IUResetSwitch_ParkSP]

/-- Idle ticks, however many, send nothing and leave the air conditioner
alone. -/
theorem runTicks_idle_frame (ins : List ((Int × Int) × CurlOutcome)) (s : Roof)
    (hidle : s.DomeMotionSP_s ≠ IPS_BUSY) :
    (runTicks ins s).trace = s.trace ∧
    (runTicks ins s).acPin = s.acPin ∧
    (runTicks ins s).ACControlS0 = s.ACControlS0 ∧
    (runTicks ins s).ACControlS1 = s.ACControlS1 := by
  induction ins generalizing s with
  | nil => simp [runTicks]
  | cons i is ih =>
    obtain ⟨h1, h2, h3, h4, h5⟩ := TimerHit_idle_frame i.1.1 i.1.2 i.2 s hidle
    obtain ⟨g2, g3, g4, g5⟩ := ih (TimerHit i.1.1 i.1.2 i.2 s) h1
    simp only [runTicks]
    exact ⟨g2.trans h2, g3.trans h3, g4.trans h4, g5.trans h5⟩

/-! ## C1: closed limit sensed from the Unknown park state -/

/-- C1 as stated fails: from the constructor state (Unknown, no move, memos at
`-1`) three ticks reading open high and closed low make the logical Closed
switch Engaged, but the park state is still Unknown and no air-conditioner
command is in the trace. -/
theorem C1_counterexample :
    ¬ ∀ (s : Roof) (ins : List ((Int × Int) × CurlOutcome)) (o : Int),
      s.connected = true → parkState s = ParkState.Unknown →
      s.DomeMotionSP_s ≠ IPS_BUSY → o ≠ 0 → (∀ i ∈ ins, i.1 = (o, 0)) →
      (runTicks ins s).fullClosedLimitSwitch = ISS_ON →
        parkState (runTicks ins s) = ParkState.Parked ∧
        Cmd.ac true ∈ (runTicks ins s).trace := by
  intro h
  have h1 := h Roof.init
    [((1, 0), CurlOutcome.performed 0), ((1, 0), CurlOutcome.performed 0),
     ((1, 0), CurlOutcome.performed 0)] 1
    (by decide) (by decide) (by decide) (by decide) (by decide) (by decide)
  exact absurd h1.1 (by decide)

/-- C1 (amended): from every state with park state Unknown and no move in
progress, and for every sequence of poll ticks whose raw readings are
constant with the closed input low and the open input high, once the logical
Closed switch has become Engaged the ticks have sent no command (the trace is
as before them) and the air-conditioner pin and switches are as before
them. -/
theorem C1_idle_ticks_leave_climate (s : Roof) (ins : List ((Int × Int) × CurlOutcome))
    (o : Int) (_hconn : s.connected = true) (_hpark : parkState s = ParkState.Unknown)
    (hidle : s.DomeMotionSP_s ≠ IPS_BUSY) (_ho : o ≠ 0)
    (_hins : ∀ i ∈ ins, i.1 = (o, 0))
    (_hclosed : (runTicks ins s).fullClosedLimitSwitch = ISS_ON) :
    (runTicks ins s).trace = s.trace ∧
    (runTicks ins s).acPin = s.acPin ∧
    (runTicks ins s).ACControlS0 = s.ACControlS0 ∧
    (runTicks ins s).ACControlS1 = s.ACControlS1 :=
  runTicks_idle_frame ins s hidle

/-- Witness for C1: three ticks reading (high, low) from the constructor
state. -/
theorem C1_idle_ticks_leave_climate_witness :
    (runTicks [((1, 0), CurlOutcome.performed 0), ((1, 0), CurlOutcome.performed 0),
        ((1, 0), CurlOutcome.performed 0)] Roof.init).fullClosedLimitSwitch = ISS_ON ∧
    (runTicks [((1, 0), CurlOutcome.performed 0), ((1, 0), CurlOutcome.performed 0),
        ((1, 0), CurlOutcome.performed 0)] Roof.init).trace = Roof.init.trace ∧
    (runTicks [((1, 0), CurlOutcome.performed 0), ((1, 0), CurlOutcome.performed 0),
        ((1, 0), CurlOutcome.performed 0)] Roof.init).acPin = Roof.init.acPin :=
  ⟨by decide,
   (C1_idle_ticks_leave_climate Roof.init
      [((1, 0), CurlOutcome.performed 0), ((1, 0), CurlOutcome.performed 0),
       ((1, 0), CurlOutcome.performed 0)] 1
      (by decide) (by decide) (by decide) (by decide) (by decide) (by decide)).1,
   (C1_idle_ticks_leave_climate Roof.init
      [((1, 0), CurlOutcome.performed 0), ((1, 0), CurlOutcome.performed 0),
       ((1, 0), CurlOutcome.performed 0)] 1
      (by decide) (by decide) (by decide) (by decide) (by decide) (by decide)).2.1⟩

/-! ## C2: park state against the sensed limits -/

/-- C2 fails on the code. Start Unparked with the Open limit sensed (open memo low,
closed memo high, logical Open Engaged) and no move in progress, and let the
inputs change to open high, closed low. After three ticks the logical Closed
switch is Engaged and the logical Open switch is Disengaged, and after a
fourth such tick the park state is still Unparked, not Parked. The first test
of the idle branch reads the Closed switch twice, so every idle tick with
Closed Engaged is skipped. -/
theorem C2_unparked_survives_closed_engaged :
    (runTicks [((1, 0), CurlOutcome.performed 0), ((1, 0), CurlOutcome.performed 0),
        ((1, 0), CurlOutcome.performed 0)]
        { Roof.init with ParkS1 := ISS_ON, fullOpenLimitSwitch := ISS_ON,
                         prev_open_state := 0, prev_close_state := 1 }).fullClosedLimitSwitch
      = ISS_ON ∧
    (runTicks [((1, 0), CurlOutcome.performed 0), ((1, 0), CurlOutcome.performed 0),
        ((1, 0), CurlOutcome.performed 0)]
        { Roof.init with ParkS1 := ISS_ON, fullOpenLimitSwitch := ISS_ON,
                         prev_open_state := 0, prev_close_state := 1 }).fullOpenLimitSwitch
      = ISS_OFF ∧
    (runTicks [((1, 0), CurlOutcome.performed 0), ((1, 0), CurlOutcome.performed 0),
        ((1, 0), CurlOutcome.performed 0)]
        { Roof.init with ParkS1 := ISS_ON, fullOpenLimitSwitch := ISS_ON,
                         prev_open_state := 0, prev_close_state := 1 }).DomeMotionSP_s
      = IPS_IDLE ∧
    parkState (runTicks [((1, 0), CurlOutcome.performed 0),
        ((1, 0), CurlOutcome.performed 0), ((1, 0), CurlOutcome.performed 0),
        ((1, 0), CurlOutcome.performed 0)]
        { Roof.init with ParkS1 := ISS_ON, fullOpenLimitSwitch := ISS_ON,
                         prev_open_state := 0, prev_close_state := 1 })
      = ParkState.Unparked := by
  decide

/-! ## C4: both limits sensed at once -/

/-- C4 as stated fails: during an opening move started from the Parked state, a
tick at which both logical switches are Engaged after the read completes the
move and the park state goes from Parked to Unparked. -/
theorem C4_counterexample :
    ¬ ∀ (o c : Int) (curl : CurlOutcome) (s : Roof),
      s.connected = true →
      (getLimitSwitchStatus o c s).2.fullOpenLimitSwitch = ISS_ON →
      (getLimitSwitchStatus o c s).2.fullClosedLimitSwitch = ISS_ON →
        parkState (TimerHit o c curl s) = parkState s := by
  intro h
  have h1 := h 0 0 (CurlOutcome.performed 0)
    { Roof.init with ParkS0 := ISS_ON, DomeMotionSP_s := IPS_BUSY,
                     DomeMotionS_CW := ISS_ON, prev_open_state := 0,
                     prev_close_state := 0 }
    (by decide) (by decide) (by decide)
  exact absurd h1 (by decide)

/-- C4 (amended): for every state with no move in progress and every poll tick
at which both logical switches are Engaged after the sensor read, the park
state after the tick equals the park state before it. -/
theorem C4_both_engaged_idle_tick_keeps_park (o c : Int) (curl : CurlOutcome) (s : Roof)
    (hidle : s.DomeMotionSP_s ≠ IPS_BUSY)
    (_hopen : (getLimitSwitchStatus o c s).2.fullOpenLimitSwitch = ISS_ON)
    (hclosed : (getLimitSwitchStatus o c s).2.fullClosedLimitSwitch = ISS_ON) :
    parkState (TimerHit o c curl s) = parkState s := by
  obtain ⟨-, f2, f3, f4, -, -, -, -, -, -⟩ := getLimitSwitchStatus_frame o c s
  have hidle1 : (getLimitSwitchStatus o c s).2.DomeMotionSP_s ≠ IPS_BUSY := by
    rw [f4]; exact hidle
  unfold TimerHit
  by_cases hconn : s.connected = false
  · simp [hconn]
  · simp [hconn, hidle1, getFullClosedLimitSwitch, hclosed, SetTimer, parkState, f2, f3]

/-- Witness for C4: the Unparked roof, idle, reads both inputs low on a stable
tick. -/
theorem C4_both_engaged_idle_tick_keeps_park_witness :
    (getLimitSwitchStatus 0 0
      { Roof.init with ParkS1 := ISS_ON, prev_open_state := 0,
                       prev_close_state := 0 }).2.fullOpenLimitSwitch = ISS_ON ∧
    (getLimitSwitchStatus 0 0
      { Roof.init with ParkS1 := ISS_ON, prev_open_state := 0,
                       prev_close_state := 0 }).2.fullClosedLimitSwitch = ISS_ON ∧
    parkState (TimerHit 0 0 (CurlOutcome.performed 0)
      { Roof.init with ParkS1 := ISS_ON, prev_open_state := 0, prev_close_state := 0 })
      = parkState { Roof.init with ParkS1 := ISS_ON, prev_open_state := 0,
                                   prev_close_state := 0 } :=
  ⟨by decide, by decide,
   C4_both_engaged_idle_tick_keeps_park 0 0 (CurlOutcome.performed 0)
     { Roof.init with ParkS1 := ISS_ON, prev_open_state := 0, prev_close_state := 0 }
     (by decide) (by decide) (by decide)⟩

/-! ## C5: manual override -/

/-- C5: for every poll tick of a connected driver with no move in progress, if the
park state is Parked or Unparked and both logical switches are Disengaged
after the sensor read, the park state after the tick is Unknown. -/
theorem C5_idle_tick_no_limit_gives_unknown (o c : Int) (curl : CurlOutcome) (s : Roof)
    (hconn : s.connected = true) (hidle : s.DomeMotionSP_s ≠ IPS_BUSY)
    (hpark : parkState s = ParkState.Parked ∨ parkState s = ParkState.Unparked)
    (hopen : (getLimitSwitchStatus o c s).2.fullOpenLimitSwitch = ISS_OFF)
    (hclosed : (getLimitSwitchStatus o c s).2.fullClosedLimitSwitch = ISS_OFF) :
    parkState (TimerHit o c curl s) = ParkState.Unknown := by
  obtain ⟨-, f2, f3, f4, -, -, -, -, -, -⟩ := getLimitSwitchStatus_frame o c s
  have hidle1 : (getLimitSwitchStatus o c s).2.DomeMotionSP_s ≠ IPS_BUSY := by
    rw [f4]; exact hidle
  have hsw : s.ParkS0 = ISS_ON ∨ s.ParkS1 = ISS_ON := by
    unfold parkState at hpark
    by_cases h0 : s.ParkS0 = ISS_ON
    · exact Or.inl h0
    · by_cases h1 : s.ParkS1 = ISS_ON
      · exact Or.inr h1
      · simp [h0, h1] at hpark
  unfold TimerHit
  simp [hconn, hidle1, getFullClosedLimitSwitch, getFullOpenedLimitSwitch, hopen, hclosed,
    f2, f3, hsw, SetTimer, IUResetSwitch_ParkSP, parkState]

/-- Witness for C5: the Parked roof, idle, reads both inputs high on a stable
tick. -/
theorem C5_idle_tick_no_limit_gives_unknown_witness :
    parkState { Roof.init with ParkS0 := ISS_ON, fullClosedLimitSwitch := ISS_ON,
                               prev_open_state := 1, prev_close_state := 1 }
      = ParkState.Parked ∧
    parkState (TimerHit 1 1 (CurlOutcome.performed 0)
      { Roof.init with ParkS0 := ISS_ON, fullClosedLimitSwitch := ISS_ON,
                       prev_open_state := 1, prev_close_state := 1 })
      = ParkState.Unknown :=
  ⟨by decide,
   C5_idle_tick_no_limit_gives_unknown 1 1 (CurlOutcome.performed 0)
     { Roof.init with ParkS0 := ISS_ON, fullClosedLimitSwitch := ISS_ON,
                      prev_open_state := 1, prev_close_state := 1 }
     (by decide) (by decide) (Or.inl (by decide)) (by decide) (by decide)⟩

/-! ## C9: rejected Stop at the target limit -/

/-- C9 as stated fails: during a closing move from the Unparked state, a tick
that senses the Closed limit and whose Stop request is rejected ends with
park state Parked and the move over. -/
theorem C9_counterexample :
    ¬ ∀ (o c : Int) (curl : CurlOutcome) (s : Roof),
      s.connected = true → s.DomeMotionSP_s = IPS_BUSY →
      ((s.DomeMotionS_CW = ISS_ON ∧
          (getLimitSwitchStatus o c s).2.fullOpenLimitSwitch = ISS_ON) ∨
       (s.DomeMotionS_CW ≠ ISS_ON ∧ s.DomeMotionS_CCW = ISS_ON ∧
          (getLimitSwitchStatus o c s).2.fullClosedLimitSwitch = ISS_ON)) →
      (sendRelayCommand DOME_CW MOTION_STOP curl s).1 = false →
        parkState (TimerHit o c curl s) = parkState s ∧
        motionIntent (TimerHit o c curl s) = motionIntent s := by
  intro h
  have h1 := h 1 0 (CurlOutcome.performed 7)
    { Roof.init with ParkS1 := ISS_ON, DomeMotionSP_s := IPS_BUSY,
                     DomeMotionS_CCW := ISS_ON, prev_open_state := 1,
                     prev_close_state := 0 }
    (by decide) (by decide) (by decide) (by decide)
  exact absurd h1.1 (by decide)

/-- C9 (amended): for every poll tick of a connected driver during a move at
which the target limit switch is Engaged after the sensor read, if the
transport rejects the Stop request of that tick, the tick still completes the
move: while opening the park state becomes Unparked and the trace gains the
Stop; while closing the park state becomes Parked and the trace gains the
Stop followed by the air conditioner On; in both cases no move is in progress
afterwards. -/
theorem C9_rejected_stop_still_completes (o c : Int) (curl : CurlOutcome) (s : Roof)
    (hconn : s.connected = true) (hbusy : s.DomeMotionSP_s = IPS_BUSY)
    (hrej : (sendRelayCommand DOME_CW MOTION_STOP curl s).1 = false) :
    ((s.DomeMotionS_CW = ISS_ON ∧
        (getLimitSwitchStatus o c s).2.fullOpenLimitSwitch = ISS_ON) →
      parkState (TimerHit o c curl s) = ParkState.Unparked ∧
      motionIntent (TimerHit o c curl s) = MotionIntent.Idle ∧
      (TimerHit o c curl s).DomeMotionSP_s = IPS_IDLE ∧
      (TimerHit o c curl s).trace = s.trace ++ [Cmd.relay RelayAction.Stop]) ∧
    ((s.DomeMotionS_CW ≠ ISS_ON ∧ s.DomeMotionS_CCW = ISS_ON ∧
        (getLimitSwitchStatus o c s).2.fullClosedLimitSwitch = ISS_ON) →
      parkState (TimerHit o c curl s) = ParkState.Parked ∧
      motionIntent (TimerHit o c curl s) = MotionIntent.Idle ∧
      (TimerHit o c curl s).DomeMotionSP_s = IPS_IDLE ∧
      (TimerHit o c curl s).trace
        = s.trace ++ [Cmd.relay RelayAction.Stop, Cmd.ac true]) := by
  obtain ⟨-, -, -, f4, f5, f6, -, -, -, f10⟩ := getLimitSwitchStatus_frame o c s
  have hbusy1 : (getLimitSwitchStatus o c s).2.DomeMotionSP_s = IPS_BUSY := by
    rw [f4]; exact hbusy
  constructor
  · rintro ⟨hcw, hlim⟩
    have hcw1 : (getLimitSwitchStatus o c s).2.DomeMotionS_CW = ISS_ON := by
      rw [f5]; exact hcw
    unfold TimerHit
    cases curl with
    | noHandle => simp [sendRelayCommand] at hrej
    | performed res =>
      by_cases hr : res = 0 <;>
      simp [hconn, hbusy1, hcw1, hlim, getFullOpenedLimitSwitch, sendRelayCommand,
        requestURL, SetParked, setDomeState_DOME_IDLE, SetTimer, parkState, motionIntent,
        f10, hr]
  · rintro ⟨hcw, hccw, hlim⟩
    have hcw1 : (getLimitSwitchStatus o c s).2.DomeMotionS_CW ≠ ISS_ON := by
      rw [f5]; exact hcw
    have hccw1 : (getLimitSwitchStatus o c s).2.DomeMotionS_CCW = ISS_ON := by
      rw [f6]; exact hccw
    unfold TimerHit
    cases curl with
    | noHandle => simp [sendRelayCommand] at hrej
    | performed res =>
      by_cases hr : res = 0 <;>
      simp [hconn, hbusy1, hcw1, hccw1, hlim, getFullClosedLimitSwitch, sendRelayCommand,
        requestURL, SetParked, setDomeState_DOME_IDLE, SetTimer, setAC, parkState,
        motionIntent, f10, hr]

/-- Witness for C9: a closing move from the Unparked state senses the Closed
limit and the Stop request is rejected. -/
theorem C9_rejected_stop_still_completes_witness :
    (sendRelayCommand DOME_CW MOTION_STOP (CurlOutcome.performed 7)
      { Roof.init with ParkS1 := ISS_ON, DomeMotionSP_s := IPS_BUSY,
                       DomeMotionS_CCW := ISS_ON, prev_open_state := 1,
                       prev_close_state := 0 }).1 = false ∧
    parkState (TimerHit 1 0 (CurlOutcome.performed 7)
      { Roof.init with ParkS1 := ISS_ON, DomeMotionSP_s := IPS_BUSY,
                       DomeMotionS_CCW := ISS_ON, prev_open_state := 1,
                       prev_close_state := 0 }) = ParkState.Parked :=
  ⟨by decide,
   ((C9_rejected_stop_still_completes 1 0 (CurlOutcome.performed 7)
      { Roof.init with ParkS1 := ISS_ON, DomeMotionSP_s := IPS_BUSY,
                       DomeMotionS_CCW := ISS_ON, prev_open_state := 1,
                       prev_close_state := 0 }
      (by decide) (by decide) (by decide)).2 (by decide)).1⟩

/-! ## C11: order of the commands of an unpark -/

/-- C11 as stated fails: an accepted `UnPark` from the Parked state emits the
DriveOpen request first and the air conditioner Off second, so Off does not
come before DriveOpen. -/
theorem C11_counterexample :
    ¬ ∀ (curl : CurlOutcome) (s : Roof),
      (Move DOME_CW MOTION_START curl s).1 = IPS_BUSY →
        List.indexOf (Cmd.ac false) (emitted s (UnPark curl s).2)
          < List.indexOf (Cmd.relay RelayAction.DriveOpen) (emitted s (UnPark curl s).2) := by
  intro h
  have h1 := h (CurlOutcome.performed 0)
    { Roof.init with ParkS0 := ISS_ON, fullClosedLimitSwitch := ISS_ON,
                     prev_open_state := 1, prev_close_state := 0 } (by decide)
  exact absurd h1 (by decide)

/-- C11 (amended): for every accepted `UnPark` (the open request passes its
preconditions, the request is performed and the relay accepts it) the
commands emitted are exactly the DriveOpen relay request followed by the air
conditioner Off, and the result is `IPS_BUSY`. -/
theorem C11_unpark_drives_then_climate_off (s : Roof)
    (hopen : s.fullOpenLimitSwitch ≠ ISS_ON) (hweather : s.weatherState ≠ IPS_ALERT) :
    (Move DOME_CW MOTION_START (CurlOutcome.performed 0) s).1 = IPS_BUSY ∧
    (UnPark (CurlOutcome.performed 0) s).1 = IPS_BUSY ∧
    (UnPark (CurlOutcome.performed 0) s).2.trace
      = s.trace ++ [Cmd.relay RelayAction.DriveOpen, Cmd.ac false] ∧
    emitted s (UnPark (CurlOutcome.performed 0) s).2
      = [Cmd.relay RelayAction.DriveOpen, Cmd.ac false] := by
  have key : (UnPark (CurlOutcome.performed 0) s).2.trace
      = s.trace ++ [Cmd.relay RelayAction.DriveOpen, Cmd.ac false] := by
    simp [UnPark, Dome_Move, Move, hopen, hweather, sendRelayCommand, requestURL, setAC,
      IPState.toBool, IPState.toInt]
  refine ⟨?_, ?_, key, ?_⟩
  · simp [Move, hopen, hweather, sendRelayCommand]
  · simp [UnPark, Dome_Move, Move, hopen, hweather, sendRelayCommand, IPState.toBool,
      IPState.toInt]
  · unfold emitted
    rw [key]
    simp

/-- Witness for C11: the Parked roof with the Closed limit sensed is unparked and
the relay accepts the request. -/
theorem C11_unpark_drives_then_climate_off_witness :
    emitted { Roof.init with ParkS0 := ISS_ON, fullClosedLimitSwitch := ISS_ON }
      (UnPark (CurlOutcome.performed 0)
        { Roof.init with ParkS0 := ISS_ON, fullClosedLimitSwitch := ISS_ON }).2
      = [Cmd.relay RelayAction.DriveOpen, Cmd.ac false] :=
  (C11_unpark_drives_then_climate_off
      { Roof.init with ParkS0 := ISS_ON, fullClosedLimitSwitch := ISS_ON }
      (by decide) (by decide)).2.2.2

/-! ## C15: an accepted move -/

/-- C16: for every state with no move in progress and every raw reading, a poll
tick emits no command at all (no relay request, in particular no Stop, and no
air-conditioner write), and the air-conditioner pin and switches are as
before. -/
theorem C16_idle_tick_emits_nothing (o c : Int) (curl : CurlOutcome) (s : Roof)
    (hidle : s.DomeMotionSP_s ≠ IPS_BUSY) :
    (TimerHit o c curl s).trace = s.trace ∧
    emitted s (TimerHit o c curl s) = [] ∧
    (TimerHit o c curl s).acPin = s.acPin ∧
    (TimerHit o c curl s).ACControlS0 = s.ACControlS0 ∧
    (TimerHit o c curl s).ACControlS1 = s.ACControlS1 := by
  obtain ⟨-, h2, h3, h4, h5⟩ := TimerHit_idle_frame o c curl s hidle
  refine ⟨h2, ?_, h3, h4, h5⟩
  unfold emitted
  rw [h2]
  simp

/-- Witness for C16: the Parked roof, idle, reads both inputs high on a stable
tick (the tick that downgrades the park state to Unknown). -/
theorem C16_idle_tick_emits_nothing_witness :
    emitted { Roof.init with ParkS0 := ISS_ON, fullClosedLimitSwitch := ISS_ON,
                             prev_open_state := 1, prev_close_state := 1 }
      (TimerHit 1 1 (CurlOutcome.performed 0)
        { Roof.init with ParkS0 := ISS_ON, fullClosedLimitSwitch := ISS_ON,
                         prev_open_state := 1, prev_close_state := 1 }) = [] :=
  (C16_idle_tick_emits_nothing 1 1 (CurlOutcome.performed 0)
    { Roof.init with ParkS0 := ISS_ON, fullClosedLimitSwitch := ISS_ON,
                     prev_open_state := 1, prev_close_state := 1 } (by decide)).2.1

/-! ## C12: connection setup -/

/-- The sensor reader does not look at the park switches. -/
theorem getLimitSwitchStatus_park (o c : Int) (s : Roof) (a b : ISState) :
    (getLimitSwitchStatus o c { s with ParkS0 := a, ParkS1 := b }).2
      = { (getLimitSwitchStatus o c s).2 with ParkS0 := a, ParkS1 := b } := by
  by_cases h1 : s.prev_open_state = o
  · by_cases h2 : s.prev_close_state = c <;> simp [getLimitSwitchStatus, h1, h2]
  · simp [getLimitSwitchStatus, h1]

/-- What `InitPark` does is a write of the two park switches. -/
theorem InitPark_writes_park (persisted : Option ParkState) (s : Roof) :
    ∃ a b : ISState, InitPark persisted s = { s with ParkS0 := a, ParkS1 := b } := by
  cases persisted with
  | none => exact ⟨_, _, rfl⟩
  | some v => cases v <;> exact ⟨_, _, rfl⟩

/-- C12 as stated fails: with a persisted Parked state and the sensors reading
open low, closed high on all three reads, setup from the constructor state
ends Unparked, not Parked. -/
theorem C12_counterexample :
    ¬ ∀ (persisted : Option ParkState) (r1 r2 r3 : Int × Int) (ac_level : Int) (s : Roof),
      s.DomeMotionSP_s ≠ IPS_BUSY →
        parkState (SetupParms persisted r1 r2 r3 ac_level s).2
          = (match persisted with
             | some v => v
             | none => ParkState.Unknown) ∧
        (SetupParms persisted r1 r2 r3 ac_level s).2.DomeMotionSP_s ≠ IPS_BUSY := by
  intro h
  have h1 := (h (some ParkState.Parked) (0, 1) (0, 1) (0, 1) 1 Roof.init (by decide)).1
  exact absurd h1 (by decide)

/-- C12 (amended): after connection setup the park state is fixed by the logical
limit switches left by the three sensor reads, whatever was persisted: Unknown
when both are Disengaged, Parked when Closed is Engaged, Unparked when Closed
is Disengaged and Open is Engaged. The setup changes neither logical switch
after the reads, and no move is in progress afterwards if none was before. -/
theorem C12_setup_park_state_from_limits (persisted : Option ParkState)
    (r1 r2 r3 : Int × Int) (ac_level : Int) (s : Roof) :
    (SetupParms persisted r1 r2 r3 ac_level s).2.fullOpenLimitSwitch
      = (runReads [r1, r2, r3] s).fullOpenLimitSwitch ∧
    (SetupParms persisted r1 r2 r3 ac_level s).2.fullClosedLimitSwitch
      = (runReads [r1, r2, r3] s).fullClosedLimitSwitch ∧
    parkState (SetupParms persisted r1 r2 r3 ac_level s).2
      = (if (runReads [r1, r2, r3] s).fullClosedLimitSwitch = ISS_ON then ParkState.Parked
         else if (runReads [r1, r2, r3] s).fullOpenLimitSwitch = ISS_ON then ParkState.Unparked
         else ParkState.Unknown) ∧
    (s.DomeMotionSP_s ≠ IPS_BUSY →
      (SetupParms persisted r1 r2 r3 ac_level s).2.DomeMotionSP_s ≠ IPS_BUSY) := by
  obtain ⟨a, b, hab⟩ := InitPark_writes_park persisted s
  have f1 := (getLimitSwitchStatus_frame r1.1 r1.2 s).2.2.2.1
  have f2 := (getLimitSwitchStatus_frame r2.1 r2.2 (getLimitSwitchStatus r1.1 r1.2 s).2).2.2.2.1
  have f3 := (getLimitSwitchStatus_frame r3.1 r3.2
    (getLimitSwitchStatus r2.1 r2.2 (getLimitSwitchStatus r1.1 r1.2 s).2).2).2.2.2.1
  have fm : (runReads [r1, r2, r3] s).DomeMotionSP_s = s.DomeMotionSP_s := by
    simp only [runReads]
    rw [f3, f2, f1]
  rw [← fm]
  unfold SetupParms
  simp only [hab, getLimitSwitchStatus_park, runReads]
  obtain ⟨R, hR⟩ : ∃ R, (getLimitSwitchStatus r3.1 r3.2
      (getLimitSwitchStatus r2.1 r2.2 (getLimitSwitchStatus r1.1 r1.2 s).2).2).2 = R :=
    ⟨_, rfl⟩
  simp only [hR]
  cases hC : R.fullClosedLimitSwitch <;> cases hO : R.fullOpenLimitSwitch <;>
    by_cases hac : ac_level = 0 <;> by_cases hb : R.DomeMotionSP_s = IPS_BUSY <;>
    simp [hC, hO, hac, hb, IUResetSwitch_ParkSP, SetParked, setDomeState_DOME_IDLE, parkState]

/-- Witness for C12: setup from the constructor state, nothing persisted, with
the sensors reading open high and closed low three times, ends Parked with no
move in progress. -/
theorem C12_setup_park_state_from_limits_witness :
    Roof.init.DomeMotionSP_s ≠ IPS_BUSY ∧
    parkState (SetupParms none (1, 0) (1, 0) (1, 0) 0 Roof.init).2 = ParkState.Parked ∧
    (SetupParms none (1, 0) (1, 0) (1, 0) 0 Roof.init).2.DomeMotionSP_s ≠ IPS_BUSY :=
  ⟨by decide,
   (C12_setup_park_state_from_limits none (1, 0) (1, 0) (1, 0) 0 Roof.init).2.2.1.trans
     (by decide),
   (C12_setup_park_state_from_limits none (1, 0) (1, 0) (1, 0) 0 Roof.init).2.2.2
     (by decide)⟩

/-! ## C18, C20: the sensor reader against its reference -/

/-- C18: for every driver state and raw pair, `getLimitSwitchStatus` does on the
memos and logical switches exactly what the reference reader does (an open
level differing from the open memo updates only that memo; otherwise a closed
level differing from the closed memo updates only that memo; otherwise each
logical switch is Engaged exactly when its raw level is 0 and the memos
stay), it changes no other member, and it returns `true`. -/
theorem C18_reader_matches_reference (o c : Int) (s : Roof) :
    sensorView (getLimitSwitchStatus o c s).2 = readReference o c (sensorView s) ∧
    { (getLimitSwitchStatus o c s).2 with
        prev_open_state := s.prev_open_state,
        prev_close_state := s.prev_close_state,
        fullOpenLimitSwitch := s.fullOpenLimitSwitch,
        fullClosedLimitSwitch := s.fullClosedLimitSwitch } = s ∧
    (getLimitSwitchStatus o c s).1 = true := by
  by_cases h1 : s.prev_open_state = o
  · by_cases h2 : s.prev_close_state = c
    · by_cases ho : o = 0 <;> by_cases hc : c = 0 <;>
        simp [getLimitSwitchStatus, readReference, sensorView, h1.symm, h2.symm, ho, hc]
    · have h2' : ¬ c = s.prev_close_state := fun h => h2 h.symm
      simp [getLimitSwitchStatus, readReference, sensorView, h1.symm, h2, h2']
  · have h1' : ¬ o = s.prev_open_state := fun h => h1 h.symm
    simp [getLimitSwitchStatus, readReference, sensorView, h1, h1']

/-- A read whose open level equals the open memo leaves both memos equal to the
raw pair. -/
theorem getLimitSwitchStatus_memos (o c : Int) (s : Roof) (h : s.prev_open_state = o) :
    (getLimitSwitchStatus o c s).2.prev_open_state = o ∧
    (getLimitSwitchStatus o c s).2.prev_close_state = c := by
  by_cases h2 : s.prev_close_state = c <;> simp [getLimitSwitchStatus, h, h2]

/-- A stable read recomputes both logical switches from the raw levels. -/
theorem getLimitSwitchStatus_stable (o c : Int) (s : Roof) (h1 : s.prev_open_state = o)
    (h2 : s.prev_close_state = c) :
    ((getLimitSwitchStatus o c s).2.fullOpenLimitSwitch = ISS_ON ↔ o = 0) ∧
    ((getLimitSwitchStatus o c s).2.fullClosedLimitSwitch = ISS_ON ↔ c = 0) := by
  by_cases ho : o = 0 <;> by_cases hc : c = 0 <;>
    simp [getLimitSwitchStatus, h1, h2, ho, hc]

/-- C20: from every memo state and every prior logical state, three consecutive
reads of the same raw pair leave the logical Open switch Engaged exactly when
the open level is 0 and the logical Closed switch Engaged exactly when the
closed level is 0; two reads do not always suffice: from the constructor
state two reads of (high, low) leave both logical switches as they were,
Closed still Disengaged. -/
theorem C20_three_reads_converge :
    (∀ (s : Roof) (o c : Int),
      ((runReads [(o, c), (o, c), (o, c)] s).fullOpenLimitSwitch = ISS_ON ↔ o = 0) ∧
      ((runReads [(o, c), (o, c), (o, c)] s).fullClosedLimitSwitch = ISS_ON ↔ c = 0)) ∧
    (runReads [(1, 0), (1, 0)] Roof.init).fullOpenLimitSwitch
      = Roof.init.fullOpenLimitSwitch ∧
    (runReads [(1, 0), (1, 0)] Roof.init).fullClosedLimitSwitch = ISS_OFF ∧
    (runReads [(1, 0), (1, 0), (1, 0)] Roof.init).fullClosedLimitSwitch = ISS_ON := by
  refine ⟨?_, by decide, by decide, by decide⟩
  intro s o c
  have e1 := getLimitSwitchStatus_prev_open o c s
  have e2 := getLimitSwitchStatus_memos o c (getLimitSwitchStatus o c s).2 e1
  simp only [runReads]
  exact getLimitSwitchStatus_stable o c _ e2.1 e2.2

/-! ## The idle branch of a tick, case by case -/

/-- A tick never changes the logical switches after its sensor read. -/
theorem TimerHit_limits (o c : Int) (curl : CurlOutcome) (s : Roof)
    (hconn : s.connected = true) :
    (TimerHit o c curl s).fullOpenLimitSwitch
      = (getLimitSwitchStatus o c s).2.fullOpenLimitSwitch ∧
    (TimerHit o c curl s).fullClosedLimitSwitch
      = (getLimitSwitchStatus o c s).2.fullClosedLimitSwitch ∧
    (TimerHit o c curl s).connected = true := by
  have fc := (getLimitSwitchStatus_frame o c s).1
  unfold TimerHit
  simp only [hconn, Bool.true_eq_false, if_false]
  cases curl with
  | noHandle =>
    split_ifs <;>
      simp [SetTimer, SetParked, setDomeState_DOME_IDLE, IUResetSwitch_ParkSP, setAC,
        sendRelayCommand, fc, hconn] <;>
      split_ifs <;> simp [fc, hconn]
  | performed res =>
    by_cases hr : res = 0 <;>
    split_ifs <;>
      simp [SetTimer, SetParked, setDomeState_DOME_IDLE, IUResetSwitch_ParkSP, setAC,
        sendRelayCommand, fc, hconn, hr] <;>
      split_ifs <;> simp [fc, hconn]

/-- The park switches after a tick of a connected driver with no move in
progress, by the logical switches left by the sensor read. -/
theorem TimerHit_idle_park (o c : Int) (curl : CurlOutcome) (s : Roof)
    (hconn : s.connected = true) (hidle : s.DomeMotionSP_s ≠ IPS_BUSY) :
    ((getLimitSwitchStatus o c s).2.fullClosedLimitSwitch = ISS_ON ∧
      (TimerHit o c curl s).ParkS0 = s.ParkS0 ∧ (TimerHit o c curl s).ParkS1 = s.ParkS1) ∨
    ((getLimitSwitchStatus o c s).2.fullClosedLimitSwitch = ISS_OFF ∧
      (getLimitSwitchStatus o c s).2.fullOpenLimitSwitch = ISS_ON ∧ s.ParkS1 = ISS_OFF ∧
      (TimerHit o c curl s).ParkS0 = ISS_OFF ∧ (TimerHit o c curl s).ParkS1 = ISS_ON) ∨
    ((getLimitSwitchStatus o c s).2.fullClosedLimitSwitch = ISS_OFF ∧
      (getLimitSwitchStatus o c s).2.fullOpenLimitSwitch = ISS_ON ∧ s.ParkS1 = ISS_ON ∧
      (TimerHit o c curl s).ParkS0 = s.ParkS0 ∧ (TimerHit o c curl s).ParkS1 = ISS_ON) ∨
    ((getLimitSwitchStatus o c s).2.fullClosedLimitSwitch = ISS_OFF ∧
      (getLimitSwitchStatus o c s).2.fullOpenLimitSwitch = ISS_OFF ∧
      (TimerHit o c curl s).ParkS0 = ISS_OFF ∧ (TimerHit o c curl s).ParkS1 = ISS_OFF) := by
  obtain ⟨-, f2, f3, f4, -, -, -, -, -, -⟩ := getLimitSwitchStatus_frame o c s
  have hidle1 : (getLimitSwitchStatus o c s).2.DomeMotionSP_s ≠ IPS_BUSY := by
    rw [f4]; exact hidle
  unfold TimerHit
  cases hC : (getLimitSwitchStatus o c s).2.fullClosedLimitSwitch <;>
    cases hO : (getLimitSwitchStatus o c s).2.fullOpenLimitSwitch <;>
    cases h0 : s.ParkS0 <;> cases h1 : s.ParkS1 <;>
    simp [hconn, hidle1, getFullClosedLimitSwitch, getFullOpenedLimitSwitch, hC, hO,
      f2, f3, h0, h1, SetTimer, SetParked, setDomeState_DOME_IDLE, IUResetSwitch_ParkSP]

/-! ## C14: completion of a move -/

/-- C14 as stated fails: a closing move from the Unparked state senses the Closed
limit on a tick at which `curl_easy_init` gives no handle; the tick ends
Parked and writes the air conditioner on, but it sends no Stop request. -/
theorem C14_counterexample :
    ¬ ∀ (o c : Int) (curl : CurlOutcome) (s : Roof),
      ((s.connected = true ∧ s.DomeMotionSP_s = IPS_BUSY ∧ s.DomeMotionS_CW = ISS_ON ∧
          (getLimitSwitchStatus o c s).2.fullOpenLimitSwitch = ISS_ON) →
        List.count (Cmd.relay RelayAction.Stop) (emitted s (TimerHit o c curl s)) = 1 ∧
        parkState (TimerHit o c curl s) = ParkState.Unparked ∧
        motionIntent (TimerHit o c curl s) = MotionIntent.Idle) ∧
      ((s.connected = true ∧ s.DomeMotionSP_s = IPS_BUSY ∧ s.DomeMotionS_CW ≠ ISS_ON ∧
          s.DomeMotionS_CCW = ISS_ON ∧
          (getLimitSwitchStatus o c s).2.fullClosedLimitSwitch = ISS_ON) →
        List.count (Cmd.relay RelayAction.Stop) (emitted s (TimerHit o c curl s)) = 1 ∧
        parkState (TimerHit o c curl s) = ParkState.Parked ∧
        motionIntent (TimerHit o c curl s) = MotionIntent.Idle ∧
        Cmd.ac true ∈ emitted s (TimerHit o c curl s) ∧
        List.indexOf (Cmd.relay RelayAction.Stop) (emitted s (TimerHit o c curl s))
          < List.indexOf (Cmd.ac true) (emitted s (TimerHit o c curl s))) ∧
      (¬ (s.connected = true ∧ s.DomeMotionSP_s = IPS_BUSY ∧ s.DomeMotionS_CW ≠ ISS_ON ∧
          s.DomeMotionS_CCW = ISS_ON ∧
          (getLimitSwitchStatus o c s).2.fullClosedLimitSwitch = ISS_ON) →
        Cmd.ac true ∉ emitted s (TimerHit o c curl s)) := by
  intro h
  have h1 := ((h 1 0 CurlOutcome.noHandle
    { Roof.init with ParkS1 := ISS_ON, DomeMotionSP_s := IPS_BUSY,
                     DomeMotionS_CCW := ISS_ON, prev_open_state := 1,
                     prev_close_state := 0 }).2.1 (by decide)).1
  exact absurd h1 (by decide)

/-- C14 (amended): for every poll tick of a connected driver during a move, if the
move is an opening and the logical Open switch is Engaged after the read, the
tick ends Unparked with no move in progress and emits exactly one Stop
request when the transport performs it (nothing when `curl_easy_init` gives
no handle); if the move is a closing and the logical Closed switch is Engaged
after the read, the tick ends Parked with no move in progress and emits
exactly one Stop request, when the transport performs it, followed by the air
conditioner On; and a tick in any situation other than that closing one emits
no air-conditioner On. -/
theorem C14_tick_completes_move (o c : Int) (curl : CurlOutcome) (s : Roof) :
    ((s.connected = true ∧ s.DomeMotionSP_s = IPS_BUSY ∧ s.DomeMotionS_CW = ISS_ON ∧
        (getLimitSwitchStatus o c s).2.fullOpenLimitSwitch = ISS_ON) →
      emitted s (TimerHit o c curl s)
        = (match curl with
           | CurlOutcome.performed _ => [Cmd.relay RelayAction.Stop]
           | CurlOutcome.noHandle => []) ∧
      parkState (TimerHit o c curl s) = ParkState.Unparked ∧
      motionIntent (TimerHit o c curl s) = MotionIntent.Idle ∧
      (TimerHit o c curl s).DomeMotionSP_s ≠ IPS_BUSY) ∧
    ((s.connected = true ∧ s.DomeMotionSP_s = IPS_BUSY ∧ s.DomeMotionS_CW ≠ ISS_ON ∧
        s.DomeMotionS_CCW = ISS_ON ∧
        (getLimitSwitchStatus o c s).2.fullClosedLimitSwitch = ISS_ON) →
      emitted s (TimerHit o c curl s)
        = (match curl with
           | CurlOutcome.performed _ => [Cmd.relay RelayAction.Stop, Cmd.ac true]
           | CurlOutcome.noHandle => [Cmd.ac true]) ∧
      parkState (TimerHit o c curl s) = ParkState.Parked ∧
      motionIntent (TimerHit o c curl s) = MotionIntent.Idle ∧
      (TimerHit o c curl s).DomeMotionSP_s ≠ IPS_BUSY) ∧
    (¬ (s.connected = true ∧ s.DomeMotionSP_s = IPS_BUSY ∧ s.DomeMotionS_CW ≠ ISS_ON ∧
        s.DomeMotionS_CCW = ISS_ON ∧
        (getLimitSwitchStatus o c s).2.fullClosedLimitSwitch = ISS_ON) →
      Cmd.ac true ∉ emitted s (TimerHit o c curl s)) := by
  obtain ⟨-, -, -, f4, f5, f6, -, -, -, f10⟩ := getLimitSwitchStatus_frame o c s
  refine ⟨?_, ?_, ?_⟩
  · rintro ⟨hconn, hbusy, hcw, hlim⟩
    have hbusy1 : (getLimitSwitchStatus o c s).2.DomeMotionSP_s = IPS_BUSY := by
      rw [f4]; exact hbusy
    have hcw1 : (getLimitSwitchStatus o c s).2.DomeMotionS_CW = ISS_ON := by
      rw [f5]; exact hcw
    unfold emitted TimerHit
    cases curl with
    | noHandle =>
      simp [hconn, hbusy1, hcw1, hlim, getFullOpenedLimitSwitch, sendRelayCommand,
        requestURL, SetParked, setDomeState_DOME_IDLE, SetTimer, parkState, motionIntent, f10]
    | performed res =>
      by_cases hr : res = 0 <;>
      simp [hconn, hbusy1, hcw1, hlim, getFullOpenedLimitSwitch, sendRelayCommand,
        requestURL, SetParked, setDomeState_DOME_IDLE, SetTimer, parkState, motionIntent,
        f10, hr]
  · rintro ⟨hconn, hbusy, hcw, hccw, hlim⟩
    have hbusy1 : (getLimitSwitchStatus o c s).2.DomeMotionSP_s = IPS_BUSY := by
      rw [f4]; exact hbusy
    have hcw1 : (getLimitSwitchStatus o c s).2.DomeMotionS_CW ≠ ISS_ON := by
      rw [f5]; exact hcw
    have hccw1 : (getLimitSwitchStatus o c s).2.DomeMotionS_CCW = ISS_ON := by
      rw [f6]; exact hccw
    unfold emitted TimerHit
    cases curl with
    | noHandle =>
      simp [hconn, hbusy1, hcw1, hccw1, hlim, getFullClosedLimitSwitch, sendRelayCommand,
        requestURL, SetParked, setDomeState_DOME_IDLE, SetTimer, setAC, parkState,
        motionIntent, f10]
    | performed res =>
      by_cases hr : res = 0 <;>
      simp [hconn, hbusy1, hcw1, hccw1, hlim, getFullClosedLimitSwitch, sendRelayCommand,
        requestURL, SetParked, setDomeState_DOME_IDLE, SetTimer, setAC, parkState,
        motionIntent, f10, hr]
  · intro hnot
    by_cases hconn : s.connected = true
    · by_cases hbusy : s.DomeMotionSP_s = IPS_BUSY
      · have hbusy1 : (getLimitSwitchStatus o c s).2.DomeMotionSP_s = IPS_BUSY := by
          rw [f4]; exact hbusy
        by_cases hcw : s.DomeMotionS_CW = ISS_ON
        · have hcw1 : (getLimitSwitchStatus o c s).2.DomeMotionS_CW = ISS_ON := by
            rw [f5]; exact hcw
          unfold emitted TimerHit
          cases curl with
          | noHandle =>
            by_cases hlim : (getLimitSwitchStatus o c s).2.fullOpenLimitSwitch = ISS_ON <;>
            simp [hconn, hbusy1, hcw1, hlim, getFullOpenedLimitSwitch, sendRelayCommand,
              requestURL, SetParked, setDomeState_DOME_IDLE, SetTimer, f10]
          | performed res =>
            by_cases hr : res = 0 <;>
            by_cases hlim : (getLimitSwitchStatus o c s).2.fullOpenLimitSwitch = ISS_ON <;>
            simp [hconn, hbusy1, hcw1, hlim, getFullOpenedLimitSwitch, sendRelayCommand,
              requestURL, SetParked, setDomeState_DOME_IDLE, SetTimer, f10, hr]
        · have hcw1 : (getLimitSwitchStatus o c s).2.DomeMotionS_CW ≠ ISS_ON := by
            rw [f5]; exact hcw
          by_cases hccw : s.DomeMotionS_CCW = ISS_ON
          · have hccw1 : (getLimitSwitchStatus o c s).2.DomeMotionS_CCW = ISS_ON := by
              rw [f6]; exact hccw
            have hlim : ¬ (getLimitSwitchStatus o c s).2.fullClosedLimitSwitch = ISS_ON :=
              fun h => hnot ⟨hconn, hbusy, hcw, hccw, h⟩
            unfold emitted TimerHit
            simp [hconn, hbusy1, hcw1, hccw1, hlim, getFullClosedLimitSwitch, SetTimer, f10]
          · have hccw1 : (getLimitSwitchStatus o c s).2.DomeMotionS_CCW ≠ ISS_ON := by
              rw [f6]; exact hccw
            unfold emitted TimerHit
            simp [hconn, hbusy1, hcw1, hccw1, SetTimer, f10]
      · have h2 := (TimerHit_idle_frame o c curl s hbusy).2.1
        unfold emitted
        rw [h2]
        simp
    · have hc : s.connected = false := by
        cases h : s.connected
        · rfl
        · exact absurd h hconn
      unfold emitted TimerHit
      simp [hc]

/-- Witness for C14: a closing move from the Unparked state senses the Closed
limit, and an opening move from the Parked state senses the Open limit. -/
theorem C14_tick_completes_move_witness :
    emitted
      { Roof.init with ParkS1 := ISS_ON, DomeMotionSP_s := IPS_BUSY,
                       DomeMotionS_CCW := ISS_ON, prev_open_state := 1,
                       prev_close_state := 0 }
      (TimerHit 1 0 (CurlOutcome.performed 0)
        { Roof.init with ParkS1 := ISS_ON, DomeMotionSP_s := IPS_BUSY,
                         DomeMotionS_CCW := ISS_ON, prev_open_state := 1,
                         prev_close_state := 0 })
      = [Cmd.relay RelayAction.Stop, Cmd.ac true] ∧
    parkState
      (TimerHit 0 1 (CurlOutcome.performed 0)
        { Roof.init with ParkS0 := ISS_ON, DomeMotionSP_s := IPS_BUSY,
                         DomeMotionS_CW := ISS_ON, prev_open_state := 0,
                         prev_close_state := 1 })
      = ParkState.Unparked ∧
    Cmd.ac true ∉ emitted
      { Roof.init with ParkS0 := ISS_ON, DomeMotionSP_s := IPS_BUSY,
                       DomeMotionS_CW := ISS_ON, prev_open_state := 0,
                       prev_close_state := 1 }
      (TimerHit 0 1 (CurlOutcome.performed 0)
        { Roof.init with ParkS0 := ISS_ON, DomeMotionSP_s := IPS_BUSY,
                         DomeMotionS_CW := ISS_ON, prev_open_state := 0,
                         prev_close_state := 1 }) :=
  ⟨((C14_tick_completes_move 1 0 (CurlOutcome.performed 0)
      { Roof.init with ParkS1 := ISS_ON, DomeMotionSP_s := IPS_BUSY,
                       DomeMotionS_CCW := ISS_ON, prev_open_state := 1,
                       prev_close_state := 0 }).2.1 (by decide)).1,
   ((C14_tick_completes_move 0 1 (CurlOutcome.performed 0)
      { Roof.init with ParkS0 := ISS_ON, DomeMotionSP_s := IPS_BUSY,
                       DomeMotionS_CW := ISS_ON, prev_open_state := 0,
                       prev_close_state := 1 }).1 (by decide)).2.1,
   (C14_tick_completes_move 0 1 (CurlOutcome.performed 0)
      { Roof.init with ParkS0 := ISS_ON, DomeMotionSP_s := IPS_BUSY,
                       DomeMotionS_CW := ISS_ON, prev_open_state := 0,
                       prev_close_state := 1 }).2.2 (by decide)⟩

/-! ## C17, C19: the idle reconciliation -/

/-- Two successive outcomes of the idle branch with the same logical switches:
the second leaves the park switches showing what the first left. Here `lc lo`
are the logical Closed and Open switches, `s0 s1` the park switches before,
`t0 t1` after the first tick and `u0 u1` after the second. -/
theorem idle_park_twice (lc lo s0 s1 t0 t1 u0 u1 : ISState)
    (p1 : (lc = ISS_ON ∧ t0 = s0 ∧ t1 = s1) ∨
          (lc = ISS_OFF ∧ lo = ISS_ON ∧ s1 = ISS_OFF ∧ t0 = ISS_OFF ∧ t1 = ISS_ON) ∨
          (lc = ISS_OFF ∧ lo = ISS_ON ∧ s1 = ISS_ON ∧ t0 = s0 ∧ t1 = ISS_ON) ∨
          (lc = ISS_OFF ∧ lo = ISS_OFF ∧ t0 = ISS_OFF ∧ t1 = ISS_OFF))
    (p2 : (lc = ISS_ON ∧ u0 = t0 ∧ u1 = t1) ∨
          (lc = ISS_OFF ∧ lo = ISS_ON ∧ t1 = ISS_OFF ∧ u0 = ISS_OFF ∧ u1 = ISS_ON) ∨
          (lc = ISS_OFF ∧ lo = ISS_ON ∧ t1 = ISS_ON ∧ u0 = t0 ∧ u1 = ISS_ON) ∨
          (lc = ISS_OFF ∧ lo = ISS_OFF ∧ u0 = ISS_OFF ∧ u1 = ISS_OFF)) :
    u0 = t0 ∧ u1 = t1 := by
  cases lc <;> cases lo <;> cases s0 <;> cases s1 <;> cases t0 <;> cases t1 <;>
    cases u0 <;> cases u1 <;> simp_all

/-- C17: the idle reconciliation is idempotent. For every state with no move in
progress, if a second poll tick leaves the same two logical switch values as
the first one, the park state after the second tick equals the park state
after the first; and from the Unknown park state a tick that leaves both
logical switches Disengaged ends Unknown. -/
theorem C17_idle_reconciliation_idempotent (o c o2 c2 : Int) (curl curl2 : CurlOutcome)
    (s : Roof) (hidle : s.DomeMotionSP_s ≠ IPS_BUSY) :
    (((TimerHit o2 c2 curl2 (TimerHit o c curl s)).fullOpenLimitSwitch
          = (TimerHit o c curl s).fullOpenLimitSwitch ∧
       (TimerHit o2 c2 curl2 (TimerHit o c curl s)).fullClosedLimitSwitch
          = (TimerHit o c curl s).fullClosedLimitSwitch) →
      parkState (TimerHit o2 c2 curl2 (TimerHit o c curl s))
        = parkState (TimerHit o c curl s)) ∧
    ((parkState s = ParkState.Unknown ∧
       (TimerHit o c curl s).fullOpenLimitSwitch = ISS_OFF ∧
       (TimerHit o c curl s).fullClosedLimitSwitch = ISS_OFF) →
      parkState (TimerHit o c curl s) = ParkState.Unknown) := by
  by_cases hconn : s.connected = true
  · have hidle1 := (TimerHit_idle_frame o c curl s hidle).1
    obtain ⟨l1o, l1c, hconn1⟩ := TimerHit_limits o c curl s hconn
    obtain ⟨l2o, l2c, -⟩ := TimerHit_limits o2 c2 curl2 (TimerHit o c curl s) hconn1
    have p1 := TimerHit_idle_park o c curl s hconn hidle
    have p2 := TimerHit_idle_park o2 c2 curl2 (TimerHit o c curl s) hconn1 hidle1
    constructor
    · rintro ⟨eo, ec⟩
      rw [l2o] at eo
      rw [l2c] at ec
      rw [l1o] at eo
      rw [l1c] at ec
      rw [eo, ec] at p2
      obtain ⟨e0, e1⟩ := idle_park_twice _ _ _ _ _ _ _ _ p1 p2
      unfold parkState
      rw [e0, e1]
    · rintro ⟨hu, ho, hc⟩
      rw [l1o] at ho
      rw [l1c] at hc
      have hs0 : s.ParkS0 ≠ ISS_ON := by
        intro h
        simp [parkState, h] at hu
      have hs1 : s.ParkS1 ≠ ISS_ON := by
        intro h
        simp [parkState, hs0, h] at hu
      unfold parkState
      rcases p1 with ⟨a1, _, _⟩ | ⟨_, a2, _, _, _⟩ | ⟨_, a2, _, _, _⟩ | ⟨_, _, a3, a4⟩
      · rw [hc] at a1
        exact absurd a1 (by decide)
      · rw [ho] at a2
        exact absurd a2 (by decide)
      · rw [ho] at a2
        exact absurd a2 (by decide)
      · simp [a3, a4]
  · have hc : s.connected = false := by
      cases h : s.connected
      · rfl
      · exact absurd h hconn
    have e : ∀ (a b : Int) (k : CurlOutcome), TimerHit a b k s = s := by
      intro a b k
      unfold TimerHit
      simp [hc]
    constructor
    · intro _
      rw [e o c curl, e o2 c2 curl2]
    · rintro ⟨hu, -, -⟩
      rw [e o c curl]
      exact hu

/-- Witness for C17: the Parked roof reads both inputs high on two stable ticks;
the first tick gives Unknown and the second keeps it. -/
theorem C17_idle_reconciliation_idempotent_witness :
    parkState (TimerHit 1 1 (CurlOutcome.performed 0) (TimerHit 1 1 (CurlOutcome.performed 0)
      { Roof.init with ParkS0 := ISS_ON, fullClosedLimitSwitch := ISS_ON,
                       prev_open_state := 1, prev_close_state := 1 }))
      = parkState (TimerHit 1 1 (CurlOutcome.performed 0)
          { Roof.init with ParkS0 := ISS_ON, fullClosedLimitSwitch := ISS_ON,
                           prev_open_state := 1, prev_close_state := 1 }) ∧
    parkState (TimerHit 1 1 (CurlOutcome.performed 0)
      { Roof.init with prev_open_state := 1, prev_close_state := 1 })
      = ParkState.Unknown :=
  ⟨(C17_idle_reconciliation_idempotent 1 1 1 1 (CurlOutcome.performed 0)
      (CurlOutcome.performed 0)
      { Roof.init with ParkS0 := ISS_ON, fullClosedLimitSwitch := ISS_ON,
                       prev_open_state := 1, prev_close_state := 1 }
      (by decide)).1 (by decide),
   (C17_idle_reconciliation_idempotent 1 1 1 1 (CurlOutcome.performed 0)
      (CurlOutcome.performed 0)
      { Roof.init with prev_open_state := 1, prev_close_state := 1 }
      (by decide)).2 (by decide)⟩

/-- C19: for every prior park state (the two park switches are never both on), a
poll tick of a connected driver with no move in progress at which the logical
Open switch is Engaged and the logical Closed switch is Disengaged after the
read ends Unparked; in particular Unknown is promoted to Unparked. -/
theorem C19_open_sensed_idle_gives_unparked (o c : Int) (curl : CurlOutcome) (s : Roof)
    (hconn : s.connected = true) (hidle : s.DomeMotionSP_s ≠ IPS_BUSY)
    (hone : s.ParkS0 = ISS_ON → s.ParkS1 = ISS_OFF)
    (hopen : (getLimitSwitchStatus o c s).2.fullOpenLimitSwitch = ISS_ON)
    (hclosed : (getLimitSwitchStatus o c s).2.fullClosedLimitSwitch = ISS_OFF) :
    parkState (TimerHit o c curl s) = ParkState.Unparked := by
  have p1 := TimerHit_idle_park o c curl s hconn hidle
  unfold parkState
  rcases p1 with ⟨a1, a2, a3⟩ | ⟨a1, a2, a3, a4, a5⟩ | ⟨a1, a2, a3, a4, a5⟩ | ⟨a1, a2, a3, a4⟩
  · rw [hclosed] at a1
    exact absurd a1 (by decide)
  · simp [a4, a5]
  · have h0 : s.ParkS0 ≠ ISS_ON := by
      intro h
      have := hone h
      rw [a3] at this
      exact absurd this (by decide)
    rw [a4, a5]
    simp [h0]
  · rw [hopen] at a2
    exact absurd a2 (by decide)

/-- Witness for C19: the Unknown roof, idle, reads open low and closed high on a
stable tick and becomes Unparked. -/
theorem C19_open_sensed_idle_gives_unparked_witness :
    parkState { Roof.init with prev_open_state := 0, prev_close_state := 1 }
      = ParkState.Unknown ∧
    parkState (TimerHit 0 1 (CurlOutcome.performed 0)
      { Roof.init with prev_open_state := 0, prev_close_state := 1 })
      = ParkState.Unparked :=
  ⟨by decide,
   C19_open_sensed_idle_gives_unparked 0 1 (CurlOutcome.performed 0)
     { Roof.init with prev_open_state := 0, prev_close_state := 1 }
     (by decide) (by decide) (by decide) (by decide) (by decide)⟩

/-! ## C13: round trip -/

/-- One tick of a connected driver during an opening move: either the Open limit
is sensed and the tick ends Unparked with the motion property idle, or the
move goes on; the air conditioner is not touched either way. -/
theorem TimerHit_opening_step (o c : Int) (curl : CurlOutcome) (s : Roof)
    (hconn : s.connected = true) (hbusy : s.DomeMotionSP_s = IPS_BUSY)
    (hcw : s.DomeMotionS_CW = ISS_ON) :
    (TimerHit o c curl s).connected = true ∧
    (TimerHit o c curl s).acPin = s.acPin ∧
    (TimerHit o c curl s).ACControlS0 = s.ACControlS0 ∧
    (TimerHit o c curl s).ACControlS1 = s.ACControlS1 ∧
    (TimerHit o c curl s).weatherState = s.weatherState ∧
    ((TimerHit o c curl s).fullOpenLimitSwitch = ISS_ON →
      parkState (TimerHit o c curl s) = ParkState.Unparked ∧
      (TimerHit o c curl s).DomeMotionSP_s = IPS_IDLE) ∧
    ((TimerHit o c curl s).fullOpenLimitSwitch ≠ ISS_ON →
      (TimerHit o c curl s).DomeMotionSP_s = IPS_BUSY ∧
      (TimerHit o c curl s).DomeMotionS_CW = ISS_ON) := by
  obtain ⟨f1, -, -, f4, f5, -, f7, f8, f9, -⟩ := getLimitSwitchStatus_frame o c s
  have fw : (getLimitSwitchStatus o c s).2.weatherState = s.weatherState := by
    by_cases h1 : s.prev_open_state = o
    · by_cases h2 : s.prev_close_state = c <;> simp [getLimitSwitchStatus, h1, h2]
    · simp [getLimitSwitchStatus, h1]
  have hbusy1 : (getLimitSwitchStatus o c s).2.DomeMotionSP_s = IPS_BUSY := by
    rw [f4]; exact hbusy
  have hcw1 : (getLimitSwitchStatus o c s).2.DomeMotionS_CW = ISS_ON := by
    rw [f5]; exact hcw
  have hconn1 : (getLimitSwitchStatus o c s).2.connected = true := by
    rw [f1]; exact hconn
  unfold TimerHit
  by_cases hlim : (getLimitSwitchStatus o c s).2.fullOpenLimitSwitch = ISS_ON
  · cases curl with
    | noHandle =>
      simp [hconn, hbusy1, hcw1, hlim, getFullOpenedLimitSwitch, sendRelayCommand,
        SetParked, setDomeState_DOME_IDLE, SetTimer, parkState, f7, f8, f9, fw, hconn1]
    | performed res =>
      by_cases hr : res = 0 <;>
      simp [hconn, hbusy1, hcw1, hlim, getFullOpenedLimitSwitch, sendRelayCommand,
        SetParked, setDomeState_DOME_IDLE, SetTimer, parkState, f7, f8, f9, fw, hconn1, hr]
  · simp [hconn, hbusy1, hcw1, hlim, getFullOpenedLimitSwitch, SetTimer, f7, f8, f9, fw,
      hconn1]

/-- One tick of a connected driver during a closing move: either the Closed limit
is sensed and the tick ends Parked with the motion property idle and the air
conditioner on, or the move goes on. -/
theorem TimerHit_closing_step (o c : Int) (curl : CurlOutcome) (s : Roof)
    (hconn : s.connected = true) (hbusy : s.DomeMotionSP_s = IPS_BUSY)
    (hcw : s.DomeMotionS_CW ≠ ISS_ON) (hccw : s.DomeMotionS_CCW = ISS_ON) :
    (TimerHit o c curl s).connected = true ∧
    ((TimerHit o c curl s).fullClosedLimitSwitch = ISS_ON →
      parkState (TimerHit o c curl s) = ParkState.Parked ∧
      (TimerHit o c curl s).DomeMotionSP_s = IPS_IDLE ∧
      (TimerHit o c curl s).acPin = true ∧
      (TimerHit o c curl s).ACControlS0 = ISS_ON ∧
      (TimerHit o c curl s).ACControlS1 = ISS_OFF) ∧
    ((TimerHit o c curl s).fullClosedLimitSwitch ≠ ISS_ON →
      (TimerHit o c curl s).DomeMotionSP_s = IPS_BUSY ∧
      (TimerHit o c curl s).DomeMotionS_CW ≠ ISS_ON ∧
      (TimerHit o c curl s).DomeMotionS_CCW = ISS_ON) := by
  obtain ⟨f1, -, -, f4, f5, f6, -, -, -, -⟩ := getLimitSwitchStatus_frame o c s
  have hbusy1 : (getLimitSwitchStatus o c s).2.DomeMotionSP_s = IPS_BUSY := by
    rw [f4]; exact hbusy
  have hcw1 : (getLimitSwitchStatus o c s).2.DomeMotionS_CW ≠ ISS_ON := by
    rw [f5]; exact hcw
  have hccw1 : (getLimitSwitchStatus o c s).2.DomeMotionS_CCW = ISS_ON := by
    rw [f6]; exact hccw
  have hconn1 : (getLimitSwitchStatus o c s).2.connected = true := by
    rw [f1]; exact hconn
  unfold TimerHit
  by_cases hlim : (getLimitSwitchStatus o c s).2.fullClosedLimitSwitch = ISS_ON
  · cases curl with
    | noHandle =>
      simp [hconn, hbusy1, hcw1, hccw1, hlim, getFullClosedLimitSwitch, sendRelayCommand,
        SetParked, setDomeState_DOME_IDLE, SetTimer, setAC, parkState, hconn1]
    | performed res =>
      by_cases hr : res = 0 <;>
      simp [hconn, hbusy1, hcw1, hccw1, hlim, getFullClosedLimitSwitch, sendRelayCommand,
        SetParked, setDomeState_DOME_IDLE, SetTimer, setAC, parkState, hconn1, hr]
  · simp [hconn, hbusy1, hcw1, hccw1, hlim, getFullClosedLimitSwitch, SetTimer, hconn1]

/-- Ticks of an opening move, run until the Open limit is sensed, end Unparked
with the motion property idle and the air conditioner as it was. -/
theorem ticksUntil_opening (ins : List ((Int × Int) × CurlOutcome)) (s s2 : Roof)
    (hconn : s.connected = true) (hbusy : s.DomeMotionSP_s = IPS_BUSY)
    (hcw : s.DomeMotionS_CW = ISS_ON)
    (h : ticksUntil getFullOpenedLimitSwitch ins s = some s2) :
    s2.connected = true ∧ parkState s2 = ParkState.Unparked ∧
    s2.DomeMotionSP_s = IPS_IDLE ∧ s2.fullOpenLimitSwitch = ISS_ON ∧
    s2.acPin = s.acPin ∧ s2.ACControlS0 = s.ACControlS0 ∧
    s2.ACControlS1 = s.ACControlS1 ∧ s2.weatherState = s.weatherState := by
  induction ins generalizing s with
  | nil => simp [ticksUntil] at h
  | cons i is ih =>
    obtain ⟨g1, g2, g3, g4, g5, gdone, ggo⟩ :=
      TimerHit_opening_step i.1.1 i.1.2 i.2 s hconn hbusy hcw
    simp only [ticksUntil] at h
    by_cases hp : (TimerHit i.1.1 i.1.2 i.2 s).fullOpenLimitSwitch = ISS_ON
    · have hp1 : getFullOpenedLimitSwitch (TimerHit i.1.1 i.1.2 i.2 s) = true := by
        simp [getFullOpenedLimitSwitch, hp]
      simp only [hp1, if_true, Option.some.injEq] at h
      subst h
      exact ⟨g1, (gdone hp).1, (gdone hp).2, hp, g2, g3, g4, g5⟩
    · have hp1 : getFullOpenedLimitSwitch (TimerHit i.1.1 i.1.2 i.2 s) = false := by
        simp [getFullOpenedLimitSwitch, hp]
      simp only [hp1, Bool.false_eq_true, if_false] at h
      obtain ⟨k1, k2, k3, k4, k5, k6, k7, k8⟩ := ih _ g1 (ggo hp).1 (ggo hp).2 h
      exact ⟨k1, k2, k3, k4, k5.trans g2, k6.trans g3, k7.trans g4, k8.trans g5⟩

/-- Ticks of a closing move, run until the Closed limit is sensed, end Parked
with the motion property idle and the air conditioner on. -/
theorem ticksUntil_closing (ins : List ((Int × Int) × CurlOutcome)) (s s4 : Roof)
    (hconn : s.connected = true) (hbusy : s.DomeMotionSP_s = IPS_BUSY)
    (hcw : s.DomeMotionS_CW ≠ ISS_ON) (hccw : s.DomeMotionS_CCW = ISS_ON)
    (h : ticksUntil getFullClosedLimitSwitch ins s = some s4) :
    parkState s4 = ParkState.Parked ∧ s4.DomeMotionSP_s = IPS_IDLE ∧
    s4.fullClosedLimitSwitch = ISS_ON ∧ s4.acPin = true ∧
    s4.ACControlS0 = ISS_ON ∧ s4.ACControlS1 = ISS_OFF := by
  induction ins generalizing s with
  | nil => simp [ticksUntil] at h
  | cons i is ih =>
    obtain ⟨g1, gdone, ggo⟩ :=
      TimerHit_closing_step i.1.1 i.1.2 i.2 s hconn hbusy hcw hccw
    simp only [ticksUntil] at h
    by_cases hp : (TimerHit i.1.1 i.1.2 i.2 s).fullClosedLimitSwitch = ISS_ON
    · have hp1 : getFullClosedLimitSwitch (TimerHit i.1.1 i.1.2 i.2 s) = true := by
        simp [getFullClosedLimitSwitch, hp]
      simp only [hp1, if_true, Option.some.injEq] at h
      subst h
      obtain ⟨d1, d2, d3, d4, d5⟩ := gdone hp
      exact ⟨d1, d2, hp, d3, d4, d5⟩
    · have hp1 : getFullClosedLimitSwitch (TimerHit i.1.1 i.1.2 i.2 s) = false := by
        simp [getFullClosedLimitSwitch, hp]
      simp only [hp1, Bool.false_eq_true, if_false] at h
      exact ih _ g1 (ggo hp).1 (ggo hp).2.1 (ggo hp).2.2 h

/-- An `UnPark` whose open request passes its preconditions and is accepted by
the relay leaves an opening move in progress. -/
theorem UnPark_accepted (curl : CurlOutcome) (s : Roof)
    (hopen : s.fullOpenLimitSwitch ≠ ISS_ON) (hweather : s.weatherState ≠ IPS_ALERT)
    (hacc : (sendRelayCommand DOME_CW MOTION_START curl s).1 = true) :
    (UnPark curl s).2.connected = s.connected ∧
    (UnPark curl s).2.DomeMotionSP_s = IPS_BUSY ∧
    (UnPark curl s).2.DomeMotionS_CW = ISS_ON := by
  cases curl with
  | noHandle =>
    simp [UnPark, Dome_Move, Move, hopen, hweather, sendRelayCommand, setAC,
      IPState.toBool, IPState.toInt]
  | performed res =>
    by_cases hr : res = 0
    · simp [UnPark, Dome_Move, Move, hopen, hweather, sendRelayCommand, setAC,
        IPState.toBool, IPState.toInt, hr]
    · simp [sendRelayCommand, hr] at hacc

/-- A `Park` whose close request passes its precondition and is accepted by the
relay leaves a closing move in progress. -/
theorem Park_accepted (curl : CurlOutcome) (s : Roof)
    (hclosed : s.fullClosedLimitSwitch ≠ ISS_ON)
    (hacc : (sendRelayCommand DOME_CCW MOTION_START curl s).1 = true) :
    (Park curl s).2.connected = s.connected ∧
    (Park curl s).2.DomeMotionSP_s = IPS_BUSY ∧
    (Park curl s).2.DomeMotionS_CW ≠ ISS_ON ∧
    (Park curl s).2.DomeMotionS_CCW = ISS_ON := by
  cases curl with
  | noHandle =>
    simp [Park, Dome_Move, Move, hclosed, sendRelayCommand, IPState.toBool, IPState.toInt]
  | performed res =>
    by_cases hr : res = 0
    · simp [Park, Dome_Move, Move, hclosed, sendRelayCommand, IPState.toBool,
        IPState.toInt, hr]
    · simp [sendRelayCommand, hr] at hacc

/-- The method `UnPark` leaves the connection flag alone. -/
theorem UnPark_connected (curl : CurlOutcome) (s : Roof) :
    (UnPark curl s).2.connected = s.connected := by
  cases curl with
  | noHandle =>
    by_cases h1 : s.fullOpenLimitSwitch = ISS_ON <;>
    by_cases h2 : s.weatherState = IPS_ALERT <;>
    simp [UnPark, Dome_Move, Move, h1, h2, sendRelayCommand, setAC, IPState.toBool,
      IPState.toInt]
  | performed res =>
    by_cases hr : res = 0 <;>
    by_cases h1 : s.fullOpenLimitSwitch = ISS_ON <;>
    by_cases h2 : s.weatherState = IPS_ALERT <;>
    simp [UnPark, Dome_Move, Move, h1, h2, sendRelayCommand, setAC, IPState.toBool,
      IPState.toInt, hr]

/-- Poll ticks of a connected driver, run until some condition holds, end in a
connected state. -/
theorem ticksUntil_connected (p : Roof → Bool) (ins : List ((Int × Int) × CurlOutcome))
    (s s2 : Roof) (hconn : s.connected = true) (h : ticksUntil p ins s = some s2) :
    s2.connected = true := by
  induction ins generalizing s with
  | nil => simp [ticksUntil] at h
  | cons i is ih =>
    have g := (TimerHit_limits i.1.1 i.1.2 i.2 s hconn).2.2
    simp only [ticksUntil] at h
    by_cases hp : p (TimerHit i.1.1 i.1.2 i.2 s) = true
    · simp only [hp, if_true, Option.some.injEq] at h
      subst h
      exact g
    · simp only [hp, if_false] at h
      exact ih _ g h

/-- C13 as stated fails: start Parked with the air conditioner on and the Closed
limit sensed, unpark, and let both inputs read low while the roof opens. The
tick that senses Open also senses Closed, the following `Park` is refused by
its precondition, and when Closed is next sensed the roof is Unparked with
the air conditioner off. -/
theorem C13_counterexample :
    ¬ ∀ (s0 s2 s4 : Roof) (c1 c2 : CurlOutcome)
        (ins1 ins2 : List ((Int × Int) × CurlOutcome)),
      s0.connected = true → parkState s0 = ParkState.Parked →
      s0.acPin = true → s0.ACControlS0 = ISS_ON →
      s0.fullClosedLimitSwitch = ISS_ON → s0.DomeMotionSP_s ≠ IPS_BUSY →
      s0.weatherState ≠ IPS_ALERT →
      (sendRelayCommand DOME_CW MOTION_START c1 s0).1 = true →
      (sendRelayCommand DOME_CCW MOTION_START c2 s0).1 = true →
      (∀ i ∈ ins1 ++ ins2, (sendRelayCommand DOME_CW MOTION_STOP i.2 s0).1 = true) →
      ticksUntil getFullOpenedLimitSwitch ins1 (UnPark c1 s0).2 = some s2 →
      ticksUntil getFullClosedLimitSwitch ins2 (Park c2 s2).2 = some s4 →
        parkState s4 = ParkState.Parked ∧ s4.acPin = true ∧
        s4.DomeMotionSP_s ≠ IPS_BUSY := by
  intro h
  have h1 := h
    { Roof.init with ParkS0 := ISS_ON, fullClosedLimitSwitch := ISS_ON,
                     prev_open_state := 1, prev_close_state := 0,
                     acPin := true, ACControlS0 := ISS_ON }
    { Roof.init with ParkS1 := ISS_ON, fullOpenLimitSwitch := ISS_ON,
                     fullClosedLimitSwitch := ISS_ON,
                     prev_open_state := 0, prev_close_state := 0,
                     ACControlS1 := ISS_ON, ACControlSP_s := IPS_OK, timers := 2,
                     trace := [Cmd.relay RelayAction.DriveOpen, Cmd.ac false,
                               Cmd.relay RelayAction.Stop] }
    { Roof.init with ParkS1 := ISS_ON, fullOpenLimitSwitch := ISS_ON,
                     fullClosedLimitSwitch := ISS_ON,
                     prev_open_state := 0, prev_close_state := 0,
                     ACControlS1 := ISS_ON, ACControlSP_s := IPS_OK, timers := 3,
                     trace := [Cmd.relay RelayAction.DriveOpen, Cmd.ac false,
                               Cmd.relay RelayAction.Stop] }
    (CurlOutcome.performed 0) (CurlOutcome.performed 0)
    [((0, 0), CurlOutcome.performed 0), ((0, 0), CurlOutcome.performed 0)]
    [((0, 0), CurlOutcome.performed 0)]
    (by decide) (by decide) (by decide) (by decide) (by decide) (by decide) (by decide)
    (by decide) (by decide) (by decide) (by decide) (by decide)
  exact absurd h1.1 (by decide)

/-- C13 (amended): round trip. Start connected and Parked with the air
conditioner on, the logical Closed switch Engaged and no move in progress,
the weather safe and the relay accepting the requests of `UnPark` and `Park`.
After `UnPark`, poll ticks until the logical Open switch is sensed Engaged,
`Park` issued while the logical Closed switch is Disengaged, and poll ticks
until the logical Closed switch is sensed Engaged, the roof is Parked, the
air conditioner is on and no move is in progress. -/
theorem C13_round_trip_restores_parked (s0 s2 s4 : Roof) (c1 c2 : CurlOutcome)
    (ins1 ins2 : List ((Int × Int) × CurlOutcome))
    (hconn : s0.connected = true) (_hpark : parkState s0 = ParkState.Parked)
    (_hpin : s0.acPin = true) (_hac : s0.ACControlS0 = ISS_ON)
    (_hclosed : s0.fullClosedLimitSwitch = ISS_ON)
    (_hidle : s0.DomeMotionSP_s ≠ IPS_BUSY)
    (_hweather : s0.weatherState ≠ IPS_ALERT)
    (_hacc1 : (sendRelayCommand DOME_CW MOTION_START c1 s0).1 = true)
    (hacc2 : (sendRelayCommand DOME_CCW MOTION_START c2 s0).1 = true)
    (h1 : ticksUntil getFullOpenedLimitSwitch ins1 (UnPark c1 s0).2 = some s2)
    (hclosed2 : s2.fullClosedLimitSwitch = ISS_OFF)
    (h2 : ticksUntil getFullClosedLimitSwitch ins2 (Park c2 s2).2 = some s4) :
    parkState s4 = ParkState.Parked ∧ s4.acPin = true ∧ s4.ACControlS0 = ISS_ON ∧
    s4.ACControlS1 = ISS_OFF ∧ s4.DomeMotionSP_s ≠ IPS_BUSY ∧
    motionIntent s4 = MotionIntent.Idle := by
  have k1 : s2.connected = true :=
    ticksUntil_connected getFullOpenedLimitSwitch ins1 (UnPark c1 s0).2 s2
      ((UnPark_connected c1 s0).trans hconn) h1
  have hclosed3 : s2.fullClosedLimitSwitch ≠ ISS_ON := by
    rw [hclosed2]; decide
  have hacc2b : (sendRelayCommand DOME_CCW MOTION_START c2 s2).1 = true := by
    cases c2 with
    | noHandle => simp [sendRelayCommand]
    | performed res =>
      by_cases hr : res = 0
      · simp [sendRelayCommand, hr]
      · simp [sendRelayCommand, hr] at hacc2
  obtain ⟨p1, p2, p3, p4⟩ := Park_accepted c2 s2 hclosed3 hacc2b
  obtain ⟨d1, d2, -, d4, d5, d6⟩ :=
    ticksUntil_closing ins2 (Park c2 s2).2 s4 (p1.trans k1) p2 p3 p4 h2
  refine ⟨d1, d4, d5, d6, ?_, ?_⟩
  · rw [d2]; decide
  · simp [motionIntent, d2]

/-- Witness for C13: the Parked roof at rest is unparked, the inputs go through
(high, high) to (low, high), the roof is parked again and the inputs go
through (high, high) to (high, low). -/
theorem C13_round_trip_restores_parked_witness :
    ticksUntil getFullOpenedLimitSwitch
      [((1, 1), CurlOutcome.performed 0), ((0, 1), CurlOutcome.performed 0),
       ((0, 1), CurlOutcome.performed 0)]
      (UnPark (CurlOutcome.performed 0) Roof.parkedAtRest).2
      = some (runTicks
          [((1, 1), CurlOutcome.performed 0), ((0, 1), CurlOutcome.performed 0),
           ((0, 1), CurlOutcome.performed 0)]
          (UnPark (CurlOutcome.performed 0) Roof.parkedAtRest).2) ∧
    parkState (runTicks
      [((1, 1), CurlOutcome.performed 0), ((1, 0), CurlOutcome.performed 0),
       ((1, 0), CurlOutcome.performed 0)]
      (Park (CurlOutcome.performed 0) (runTicks
        [((1, 1), CurlOutcome.performed 0), ((0, 1), CurlOutcome.performed 0),
         ((0, 1), CurlOutcome.performed 0)]
        (UnPark (CurlOutcome.performed 0) Roof.parkedAtRest).2)).2) = ParkState.Parked ∧
    (runTicks
      [((1, 1), CurlOutcome.performed 0), ((1, 0), CurlOutcome.performed 0),
       ((1, 0), CurlOutcome.performed 0)]
      (Park (CurlOutcome.performed 0) (runTicks
        [((1, 1), CurlOutcome.performed 0), ((0, 1), CurlOutcome.performed 0),
         ((0, 1), CurlOutcome.performed 0)]
        (UnPark (CurlOutcome.performed 0) Roof.parkedAtRest).2)).2).acPin = true :=
  ⟨by decide,
   (C13_round_trip_restores_parked Roof.parkedAtRest _ _
      (CurlOutcome.performed 0) (CurlOutcome.performed 0)
      [((1, 1), CurlOutcome.performed 0), ((0, 1), CurlOutcome.performed 0),
       ((0, 1), CurlOutcome.performed 0)]
      [((1, 1), CurlOutcome.performed 0), ((1, 0), CurlOutcome.performed 0),
       ((1, 0), CurlOutcome.performed 0)]
      (by decide) (by decide) (by decide) (by decide) (by decide) (by decide) (by decide)
      (by decide) (by decide)
      (show ticksUntil getFullOpenedLimitSwitch _ _ = some (runTicks
          [((1, 1), CurlOutcome.performed 0), ((0, 1), CurlOutcome.performed 0),
           ((0, 1), CurlOutcome.performed 0)]
          (UnPark (CurlOutcome.performed 0) Roof.parkedAtRest).2) from by decide)
      (by decide)
      (show ticksUntil getFullClosedLimitSwitch _ _ = some (runTicks
          [((1, 1), CurlOutcome.performed 0), ((1, 0), CurlOutcome.performed 0),
           ((1, 0), CurlOutcome.performed 0)]
          (Park (CurlOutcome.performed 0) (runTicks
            [((1, 1), CurlOutcome.performed 0), ((0, 1), CurlOutcome.performed 0),
             ((0, 1), CurlOutcome.performed 0)]
            (UnPark (CurlOutcome.performed 0) Roof.parkedAtRest).2)).2) from by decide)).1,
   (C13_round_trip_restores_parked Roof.parkedAtRest _ _
      (CurlOutcome.performed 0) (CurlOutcome.performed 0)
      [((1, 1), CurlOutcome.performed 0), ((0, 1), CurlOutcome.performed 0),
       ((0, 1), CurlOutcome.performed 0)]
      [((1, 1), CurlOutcome.performed 0), ((1, 0), CurlOutcome.performed 0),
       ((1, 0), CurlOutcome.performed 0)]
      (by decide) (by decide) (by decide) (by decide) (by decide) (by decide) (by decide)
      (by decide) (by decide)
      (show ticksUntil getFullOpenedLimitSwitch _ _ = some (runTicks
          [((1, 1), CurlOutcome.performed 0), ((0, 1), CurlOutcome.performed 0),
           ((0, 1), CurlOutcome.performed 0)]
          (UnPark (CurlOutcome.performed 0) Roof.parkedAtRest).2) from by decide)
      (by decide)
      (show ticksUntil getFullClosedLimitSwitch _ _ = some (runTicks
          [((1, 1), CurlOutcome.performed 0), ((1, 0), CurlOutcome.performed 0),
           ((1, 0), CurlOutcome.performed 0)]
          (Park (CurlOutcome.performed 0) (runTicks
            [((1, 1), CurlOutcome.performed 0), ((0, 1), CurlOutcome.performed 0),
             ((0, 1), CurlOutcome.performed 0)]
            (UnPark (CurlOutcome.performed 0) Roof.parkedAtRest).2)).2) from by decide)).2.1⟩

end IkarusRoof
